import Mathlib

/-! The primitive procedures of libisp (`builtin.c`).

A shallow embedding of the primitive procedures of the Lisp evaluator.

* A C value of type `data_t *` is a term of `data_t`; the constructor `null` is the
  `NULL` pointer, which the evaluator uses as the empty list.
* The evaluated argument list handed to a primitive is a proper chain of pair cells
  ending in `NULL`; it is a Lean `List data_t`.  On it `car(list)`, `cdr(list)`,
  `length(list)` and the test `while(list)` are head, tail, length and recursion.
* A primitive returns `Except fault data_t`: the value it returns, or the reason why
  the value model gives no result (the code reads `p->type` through a `NULL` pointer,
  or a member of the payload union other than the one stored, or the allocator refuses
  the cell of the result).
* `int` is a 32-bit two's-complement integer; arithmetic on `int` wraps (`wrap_int`).
* `double` is `Dbl`: exact rationals together with the two infinities and NaN.  Finite
  arithmetic is exact, so it agrees with IEEE-754 wherever the exact result is a
  double, which is the case at every concrete input evaluated below.  Signed zeros are
  not told apart.
* `set-car!` and `set-cdr!` change a cell in place; they alone are embedded over a heap
  of cells (section "Mutation of pairs").
* The global configuration variables and the registry of primitives are explicit states
  that `set-config!`, `get-config` and `add_prim_proc` take and give back.  For the two
  configuration primitives the allocation of the result is part of the embedding, since
  it reads `mem_lim_hard` and writes `n_bytes_allocated`; elsewhere a constructor just
  gives the cell.
-/

namespace Libisp

/-! ## Machine integers -/

/-- The least value of a C `int`. -/
def INT_MIN : Int := -2147483648

/-- The greatest value of a C `int`. -/
def INT_MAX : Int := 2147483647

/-- The value is representable in a C `int`. -/
def fits_int (x : Int) : Prop := INT_MIN ≤ x ∧ x ≤ INT_MAX

instance (x : Int) : Decidable (fits_int x) := by
  unfold fits_int; infer_instance

/-- Reduction of a mathematical integer to the `int` with the same residue modulo `2^32`:
the result of C `int` arithmetic that leaves the range. -/
def wrap_int (x : Int) : Int := (x + 2147483648) % 4294967296 - 2147483648

/-! ## Doubles -/

/-- The values of a C `double`: finite values (exact), the infinities and NaN. -/
inductive Dbl where
  | fin (q : ℚ)
  | pinf
  | ninf
  | nan
  deriving DecidableEq

namespace Dbl

/-- Conversion `(double)i` of an `int`. -/
def ofInt (i : Int) : Dbl := fin (i : ℚ)

/-- Unary minus. -/
def neg : Dbl → Dbl
  | fin a => fin (-a)
  | pinf => ninf
  | ninf => pinf
  | nan => nan

/-- Addition `x + y`; exact on finite values, where the code rounds the sum to the
nearest double. -/
def add : Dbl → Dbl → Dbl
  | fin a, fin b => fin (a + b)
  | nan, _ => nan
  | _, nan => nan
  | pinf, ninf => nan
  | ninf, pinf => nan
  | pinf, _ => pinf
  | ninf, _ => ninf
  | _, pinf => pinf
  | _, ninf => ninf

/-- Subtraction `x - y`. -/
def sub (x y : Dbl) : Dbl := add x (neg y)

/-- The infinity with the sign of a non-zero rational. -/
def inf_of_sign (s : ℚ) : Dbl := if 0 < s then pinf else ninf

/-- Multiplication `x * y`; exact on finite values, where the code rounds the product to
the nearest double and overflows to an infinity. -/
def mul : Dbl → Dbl → Dbl
  | fin a, fin b => fin (a * b)
  | nan, _ => nan
  | _, nan => nan
  | fin a, pinf => if a = 0 then nan else inf_of_sign a
  | fin a, ninf => if a = 0 then nan else inf_of_sign (-a)
  | pinf, fin b => if b = 0 then nan else inf_of_sign b
  | ninf, fin b => if b = 0 then nan else inf_of_sign (-b)
  | pinf, pinf => pinf
  | ninf, ninf => pinf
  | pinf, ninf => ninf
  | ninf, pinf => ninf

/-- Division `x / y`; exact on finite values, where the code rounds the quotient to the
nearest double.  A finite non-zero value divided by zero is an infinity; there is one
zero only, so the sign of that infinity is the sign of the dividend. -/
def div : Dbl → Dbl → Dbl
  | fin a, fin b => if b = 0 then (if a = 0 then nan else inf_of_sign a) else fin (a / b)
  | nan, _ => nan
  | _, nan => nan
  | fin _, pinf => fin 0
  | fin _, ninf => fin 0
  | pinf, fin b => if 0 ≤ b then pinf else ninf
  | ninf, fin b => if 0 ≤ b then ninf else pinf
  | pinf, pinf => nan
  | pinf, ninf => nan
  | ninf, pinf => nan
  | ninf, ninf => nan

/-- The C library function `floor`. -/
def floor : Dbl → Dbl
  | fin a => fin ((⌊a⌋ : Int) : ℚ)
  | x => x

/-- The comparison `x == y`; NaN is equal to nothing. -/
def eq : Dbl → Dbl → Bool
  | fin a, fin b => decide (a = b)
  | pinf, pinf => true
  | ninf, ninf => true
  | _, _ => false

/-- The comparison `x < y`; false as soon as an operand is NaN. -/
def lt : Dbl → Dbl → Bool
  | fin a, fin b => decide (a < b)
  | fin _, pinf => true
  | ninf, fin _ => true
  | ninf, pinf => true
  | _, _ => false

/-- The comparison `x > y`. -/
def gt (x y : Dbl) : Bool := lt y x

/-- The cast `(int)x`: truncation toward zero.  Outside the range of `int`, and for
the infinities and NaN, C leaves the result undefined; here it is `INT_MIN`. -/
def toInt : Dbl → Int
  | fin a => if fits_int (a.num.tdiv a.den) then a.num.tdiv a.den else INT_MIN
  | _ => INT_MIN

end Dbl

/-! ## Values -/

/-- The type tags of `defs.h`. -/
inductive dtype_t where
  | integer
  | decimal
  | string
  | symbol
  | pair
  | prim_procedure
  deriving DecidableEq

/-- A value of type `data_t *`: the `NULL` pointer, or a cell with its tag and payload. -/
inductive data_t where
  | null
  | integer (i : Int)
  | decimal (d : Dbl)
  | string (s : String)
  | symbol (s : String)
  | pair (l r : data_t)
  | prim_procedure (id : Nat)
  deriving DecidableEq

/-- The ways in which a call of a primitive can fail to have a defined result: a read
through `NULL`, a read of a member of the payload union other than the one stored, and a
cell that the allocator refuses (what the caller of the constructor then gets is decided
by `data.c`, which is not among the sources). -/
inductive fault where
  | null_dereference
  | union_member
  | allocation_refused
  deriving DecidableEq

/-- Modelled from the spec: the constructor `make_int` of `data.c`, which is not among
the sources; it allocates an `Integer` cell. -/
def make_int (i : Int) : data_t := data_t.integer i

/-- Modelled from the spec: the constructor `make_decimal` of `data.c`, which is not
among the sources; it allocates a `Decimal` cell. -/
def make_decimal (d : Dbl) : data_t := data_t.decimal d

/-- Modelled from the spec: the constructor `make_symbol` of `data.c`, which is not
among the sources; it allocates a fresh `Symbol` cell holding the text. -/
def make_symbol (s : String) : data_t := data_t.symbol s

/-- Modelled from the spec: the constructor `cons` of `data.c`, which is not among the
sources; it allocates a `Pair` cell. -/
def cons (a b : data_t) : data_t := data_t.pair a b

/-! ## Arithmetic primitives -/

/-- The tail of `prim_add` after its loop (lines 44-51). -/
def prim_add_finish (iout : Int) (dout : Dbl) : data_t :=
  if Dbl.eq dout (Dbl.fin 0) then
    make_int iout
  else if Dbl.eq (Dbl.sub dout (Dbl.ofInt iout)) (Dbl.floor (Dbl.sub dout (Dbl.ofInt iout))) then
    make_int (wrap_int (Dbl.toInt dout - iout))
  else
    make_decimal (Dbl.add dout (Dbl.ofInt iout))

/-- The loop of `prim_add` (lines 32-42) followed by its tail, from the accumulators
`iout` and `dout`. -/
def prim_add_loop : List data_t → Int → Dbl → Except fault data_t
  | [], iout, dout => Except.ok (prim_add_finish iout dout)
  | head :: tail, iout, dout =>
    match head with
    | data_t.null => Except.error fault.null_dereference
    | data_t.integer v => prim_add_loop tail (wrap_int (iout + v)) dout
    | data_t.decimal v => prim_add_loop tail iout (Dbl.add dout v)
    | _ => Except.ok data_t.null

/-- The primitive `+`. -/
def prim_add (list : List data_t) : Except fault data_t :=
  prim_add_loop list 0 (Dbl.fin 0)

/-- The tail of `prim_mul` after its loop (lines 71-78). -/
def prim_mul_finish (iout : Int) (dout : Dbl) : data_t :=
  if Dbl.eq dout (Dbl.fin 1) then
    make_int iout
  else if Dbl.eq (Dbl.sub dout (Dbl.ofInt iout)) (Dbl.floor (Dbl.sub dout (Dbl.ofInt iout))) then
    make_int (wrap_int (Dbl.toInt dout * iout))
  else
    make_decimal (Dbl.mul dout (Dbl.ofInt iout))

/-- The loop of `prim_mul` (lines 59-69) followed by its tail. -/
def prim_mul_loop : List data_t → Int → Dbl → Except fault data_t
  | [], iout, dout => Except.ok (prim_mul_finish iout dout)
  | head :: tail, iout, dout =>
    match head with
    | data_t.null => Except.error fault.null_dereference
    | data_t.integer v => prim_mul_loop tail (wrap_int (iout * v)) dout
    | data_t.decimal v => prim_mul_loop tail iout (Dbl.mul dout v)
    | _ => Except.ok (make_int 0)

/-- The primitive `*`. -/
def prim_mul (list : List data_t) : Except fault data_t :=
  prim_mul_loop list 1 (Dbl.fin 1)

/-- The loop of `prim_sub` (lines 111-124) followed by its tail (lines 126-130).  The
loop is a `do ... while(list)` entered with a non-empty list. -/
def prim_sub_loop : List data_t → dtype_t → Int → Dbl → Int → Dbl → Except fault data_t
  | [], out_type, istart, dstart, iout, dout =>
    if out_type = dtype_t.integer then
      Except.ok (make_int (wrap_int (istart - iout)))
    else
      Except.ok (make_decimal (Dbl.sub (Dbl.sub dstart dout) (Dbl.ofInt iout)))
  | head :: tail, out_type, istart, dstart, iout, dout =>
    match head with
    | data_t.null => Except.error fault.null_dereference
    | data_t.integer v => prim_sub_loop tail out_type istart dstart (wrap_int (iout + v)) dout
    | data_t.decimal v =>
      prim_sub_loop tail dtype_t.decimal istart (Dbl.ofInt istart) iout (Dbl.add dout v)
    | _ => Except.ok data_t.null

/-- The part of `prim_sub` after the first argument has been read (lines 101-130). -/
def prim_sub_rest (out_type : dtype_t) (istart : Int) (dstart : Dbl) (tail : List data_t) :
    Except fault data_t :=
  match tail with
  | [] =>
    if out_type = dtype_t.integer then Except.ok (make_int (wrap_int (-istart)))
    else Except.ok (make_decimal (Dbl.neg dstart))
  | _ :: _ => prim_sub_loop tail out_type istart dstart 0 (Dbl.fin 0)

/-- The primitive `-`.  The locals `istart` and `dstart` are declared without an
initial value; `istart0` and `dstart0` are the contents they happen to have. -/
def prim_sub (istart0 : Int) (dstart0 : Dbl) (list : List data_t) : Except fault data_t :=
  match list with
  | [] => Except.ok (make_symbol "error")
  | head :: tail =>
    match head with
    | data_t.null => Except.error fault.null_dereference
    | data_t.decimal d => prim_sub_rest dtype_t.decimal istart0 d tail
    | data_t.integer i => prim_sub_rest dtype_t.integer i dstart0 tail
    | _ => Except.ok (make_symbol "error")

/-- The tail of `prim_div` after its loop (lines 169-175). -/
def prim_div_finish (dstart dout : Dbl) : data_t :=
  if Dbl.eq dout (Dbl.ofInt 0) then
    make_symbol "error"
  else if Dbl.eq (Dbl.div dstart dout) (Dbl.floor (Dbl.div dstart dout)) then
    make_int (Dbl.toInt (Dbl.div dstart dout))
  else
    make_decimal (Dbl.div dstart dout)

/-- The loop of `prim_div` (lines 157-167) followed by its tail. -/
def prim_div_loop (dstart : Dbl) : List data_t → Dbl → Except fault data_t
  | [], dout => Except.ok (prim_div_finish dstart dout)
  | head :: tail, dout =>
    match head with
    | data_t.null => Except.error fault.null_dereference
    | data_t.integer v => prim_div_loop dstart tail (Dbl.mul dout (Dbl.ofInt v))
    | data_t.decimal v => prim_div_loop dstart tail (Dbl.mul dout v)
    | _ => Except.ok data_t.null

/-- The part of `prim_div` after the first argument has been read (lines 152-175). -/
def prim_div_rest (dstart : Dbl) (tail : List data_t) : Except fault data_t :=
  match tail with
  | [] => Except.ok (make_decimal (Dbl.div (Dbl.ofInt 1) dstart))
  | _ :: _ => prim_div_loop dstart tail (Dbl.fin 1)

/-- The primitive `/`. -/
def prim_div (list : List data_t) : Except fault data_t :=
  match list with
  | [] => Except.ok (make_symbol "error")
  | head :: tail =>
    match head with
    | data_t.null => Except.error fault.null_dereference
    | data_t.decimal d => prim_div_rest d tail
    | data_t.integer i => prim_div_rest (Dbl.ofInt i) tail
    | _ => Except.ok (make_symbol "error")

/-! ## Comparison primitives -/

/-- The symbol `#t` or `#f` for a truth value. -/
def bool_symbol (b : Bool) : data_t := if b then make_symbol "#t" else make_symbol "#f"

/-- The primitive `=`.  With two arguments `cdr(list)` is a pair cell, so the test of
line 188 passes.  Lines 202 and 206 read the payload of the second argument through
the union member of the first argument's type; when the two types differ the outcome
is a truth symbol that the bit pattern of the payload decides, which the value model
does not determine; it is the fault `union_member` here. -/
def prim_comp_eq (list : List data_t) : Except fault data_t :=
  match list with
  | [first, second] =>
    match first, second with
    | data_t.null, _ => Except.error fault.null_dereference
    | _, data_t.null => Except.error fault.null_dereference
    | data_t.integer a, data_t.integer b => Except.ok (bool_symbol (decide (a = b)))
    | data_t.decimal a, data_t.decimal b => Except.ok (bool_symbol (Dbl.eq a b))
    | data_t.integer _, data_t.decimal _ => Except.error fault.union_member
    | data_t.decimal _, data_t.integer _ => Except.error fault.union_member
    | _, _ => Except.ok (make_symbol "#f")
  | _ => Except.ok (make_symbol "#f")

/-- The primitive `<`.  The tag of the second argument is read only when the first
argument is a number (the `&&` of lines 221-239 short-circuits). -/
def prim_comp_less (list : List data_t) : Except fault data_t :=
  match list with
  | [head, tail] =>
    match head with
    | data_t.null => Except.error fault.null_dereference
    | data_t.integer a =>
      match tail with
      | data_t.null => Except.error fault.null_dereference
      | data_t.integer b => Except.ok (bool_symbol (decide (a < b)))
      | data_t.decimal b => Except.ok (bool_symbol (Dbl.lt (Dbl.ofInt a) b))
      | _ => Except.ok (make_symbol "#f")
    | data_t.decimal a =>
      match tail with
      | data_t.null => Except.error fault.null_dereference
      | data_t.integer b => Except.ok (bool_symbol (Dbl.lt a (Dbl.ofInt b)))
      | data_t.decimal b => Except.ok (bool_symbol (Dbl.lt a b))
      | _ => Except.ok (make_symbol "#f")
    | _ => Except.ok (make_symbol "#f")
  | _ => Except.ok (make_symbol "error")

/-- The primitive `>`. -/
def prim_comp_more (list : List data_t) : Except fault data_t :=
  match list with
  | [head, tail] =>
    match head with
    | data_t.null => Except.error fault.null_dereference
    | data_t.integer a =>
      match tail with
      | data_t.null => Except.error fault.null_dereference
      | data_t.integer b => Except.ok (bool_symbol (decide (a > b)))
      | data_t.decimal b => Except.ok (bool_symbol (Dbl.gt (Dbl.ofInt a) b))
      | _ => Except.ok (make_symbol "#f")
    | data_t.decimal a =>
      match tail with
      | data_t.null => Except.error fault.null_dereference
      | data_t.integer b => Except.ok (bool_symbol (Dbl.gt a (Dbl.ofInt b)))
      | data_t.decimal b => Except.ok (bool_symbol (Dbl.gt a b))
      | _ => Except.ok (make_symbol "#f")
    | _ => Except.ok (make_symbol "#f")
  | _ => Except.ok (make_symbol "error")

/-! ## List primitives -/

/-- The primitive `car`: the left field of a pair, `NULL` for anything else. -/
def prim_car (list : List data_t) : Except fault data_t :=
  match list with
  | [p] =>
    match p with
    | data_t.pair l _ => Except.ok l
    | _ => Except.ok data_t.null
  | _ => Except.ok (make_symbol "error")

/-- The primitive `cdr`: the right field of a pair, `NULL` for anything else. -/
def prim_cdr (list : List data_t) : Except fault data_t :=
  match list with
  | [p] =>
    match p with
    | data_t.pair _ r => Except.ok r
    | _ => Except.ok data_t.null
  | _ => Except.ok (make_symbol "error")

/-- The primitive `cons`. -/
def prim_cons (list : List data_t) : Except fault data_t :=
  match list with
  | [a, b] => Except.ok (cons a b)
  | _ => Except.ok (make_symbol "error")

/-- The primitive `list`: a fresh chain of pair cells holding the arguments
(lines 500-504). -/
def prim_list : List data_t → Except fault data_t
  | [] => Except.ok data_t.null
  | head :: tail =>
    match prim_list tail with
    | Except.ok rest => Except.ok (cons head rest)
    | Except.error e => Except.error e

/-! ## Mutation of pairs

`set-car!` and `set-cdr!` overwrite a field of an existing cell and hand back the pointer
they were given.  The value model above has no identity of cells, so these two primitives
are embedded over a heap: a pointer is an address or `NULL`, and a pair cell holds two
pointers. -/

/-- The content of a heap cell: its tag and payload. -/
inductive cell where
  | integer (i : Int)
  | decimal (d : Dbl)
  | string (s : String)
  | symbol (s : String)
  | pair (l r : Option Nat)
  | prim_procedure (id : Nat)
  deriving DecidableEq

/-- The heap: the cell stored at each address. -/
abbrev heap := Nat → cell

/-- The pointer a primitive hands back: one it was given, or a cell it has just made
(`make_symbol` allocates; the allocator is not among the sources, so a new cell is
described by its content). -/
inductive returned where
  | existing (p : Option Nat)
  | fresh (c : cell)
  deriving DecidableEq

/-- The primitive `set-car!` (lines 506-524): the returned pointer and the heap after
the call. -/
def prim_set_car (h : heap) (list : List (Option Nat)) : returned × heap :=
  match list with
  | [head, newcar] =>
    match head with
    | none => (returned.fresh (cell.symbol "error"), h)
    | some a =>
      match h a with
      | cell.pair _ r => (returned.existing (some a), Function.update h a (cell.pair newcar r))
      | _ => (returned.fresh (cell.symbol "error"), h)
  | _ => (returned.fresh (cell.symbol "error"), h)

/-- The primitive `set-cdr!` (lines 526-544). -/
def prim_set_cdr (h : heap) (list : List (Option Nat)) : returned × heap :=
  match list with
  | [head, newcdr] =>
    match head with
    | none => (returned.fresh (cell.symbol "error"), h)
    | some a =>
      match h a with
      | cell.pair l _ => (returned.existing (some a), Function.update h a (cell.pair l newcdr))
      | _ => (returned.fresh (cell.symbol "error"), h)
  | _ => (returned.fresh (cell.symbol "error"), h)

/-! ## Type predicates -/

/-- The primitive `symbol?` (lines 572-581). -/
def prim_is_sym (list : List data_t) : Except fault data_t :=
  match list with
  | [sym] =>
    match sym with
    | data_t.symbol _ => Except.ok (make_symbol "#t")
    | _ => Except.ok (make_symbol "#f")
  | _ => Except.ok (make_symbol "error")

/-- Lines 588-590 of `prim_is_str`: the test of the pointer `str`. -/
def prim_is_str_test (str : data_t) : data_t :=
  match str with
  | data_t.string _ => make_symbol "#t"
  | _ => make_symbol "#f"

/-- The primitive `string?` (lines 583-591).  The `if` of line 585 has no statement of
its own, so it guards the assignment `str = car(list)` of line 587: with exactly one
argument `str` keeps the content `str0` it happens to have, and with any other number of
arguments it is `car(list)`.  For no argument that is `car(NULL)`; `car` belongs to
`data.c`, which is not among the sources, and `car_null` is what it gives there. -/
def prim_is_str (str0 : data_t) (car_null : Except fault data_t) (list : List data_t) :
    Except fault data_t :=
  match list with
  | [_] => Except.ok (prim_is_str_test str0)
  | [] =>
    match car_null with
    | Except.ok str => Except.ok (prim_is_str_test str)
    | Except.error e => Except.error e
  | head :: _ => Except.ok (prim_is_str_test head)

/-- The primitive `pair?` (lines 593-603). -/
def prim_is_pair (list : List data_t) : Except fault data_t :=
  match list with
  | [c] =>
    match c with
    | data_t.pair _ _ => Except.ok (make_symbol "#t")
    | _ => Except.ok (make_symbol "#f")
  | _ => Except.ok (make_symbol "error")

/-- The primitive `number?` (lines 605-620). -/
def prim_is_num (list : List data_t) : Except fault data_t :=
  match list with
  | [head] =>
    match head with
    | data_t.null => Except.ok (make_symbol "#f")
    | data_t.integer _ => Except.ok (make_symbol "#t")
    | data_t.decimal _ => Except.ok (make_symbol "#t")
    | _ => Except.ok (make_symbol "#f")
  | _ => Except.ok (make_symbol "error")

/-- The primitive `integer?` (lines 622-633). -/
def prim_is_int (list : List data_t) : Except fault data_t :=
  match list with
  | [head] =>
    match head with
    | data_t.integer _ => Except.ok (make_symbol "#t")
    | _ => Except.ok (make_symbol "#f")
  | _ => Except.ok (make_symbol "error")

/-! ## Logic primitives -/

/-- Modelled from the spec: `is_equal` of `data.c`, which is not among the sources.
Atoms are compared by tag and payload.  Pairs are compared by reference, and a pair is
never the same cell as the fresh symbol that `prim_or` and `prim_and` pass as second
argument, so a pair, like `NULL`, gives false here. -/
def is_equal (a b : data_t) : Bool :=
  match a, b with
  | data_t.integer x, data_t.integer y => decide (x = y)
  | data_t.decimal x, data_t.decimal y => Dbl.eq x y
  | data_t.string s, data_t.string t => decide (s = t)
  | data_t.symbol s, data_t.symbol t => decide (s = t)
  | data_t.prim_procedure m, data_t.prim_procedure n => decide (m = n)
  | _, _ => false

/-- The primitive `or` (lines 290-297). -/
def prim_or : List data_t → Except fault data_t
  | [] => Except.ok (make_symbol "#f")
  | head :: tail =>
    if is_equal head (make_symbol "#t") then Except.ok (make_symbol "#t")
    else prim_or tail

/-- The primitive `and` (lines 299-306). -/
def prim_and : List data_t → Except fault data_t
  | [] => Except.ok (make_symbol "#t")
  | head :: tail =>
    if is_equal head (make_symbol "#f") then Except.ok (make_symbol "#f")
    else prim_and tail

/-- The primitive `not` (lines 460-469).  Line 466 compares the text at `val.symbol`
with the text of the false symbol, whatever the tag of the argument is.  For the empty
list that is a read through `NULL`.  For a symbol it is its text, and for a string too:
`val.string` and `val.symbol` are both `char *` (lines 556 and 569 pass one for the
other).  For a pair the bytes compared are those of the pair's first pointer, which is
`NULL` or the address of an aligned cell and so never spells that text.  For a number
and for a primitive the payload is used as the address of a text, which the value model
does not determine. -/
def prim_not (list : List data_t) : Except fault data_t :=
  match list with
  | [v] =>
    match v with
    | data_t.null => Except.error fault.null_dereference
    | data_t.symbol s =>
      if s = "#f" then Except.ok (make_symbol "#t") else Except.ok (make_symbol "#f")
    | data_t.string s =>
      if s = "#f" then Except.ok (make_symbol "#t") else Except.ok (make_symbol "#f")
    | data_t.pair _ _ => Except.ok (make_symbol "#f")
    | _ => Except.error fault.union_member
  | _ => Except.ok (make_symbol "error")

/-! ## Numeric primitives -/

/-- The greatest finite `double`, `DBL_MAX` of `float.h`: `2^1024 - 2^971`. -/
def DBL_MAX : Dbl := Dbl.fin ((2 : ℚ) ^ 1024 - (2 : ℚ) ^ 971)

/-- The decimal branch of `prim_round` (lines 373-382). -/
def prim_round_decimal (num : Dbl) : data_t :=
  let fracpart := Dbl.sub num (Dbl.floor num)
  if Dbl.lt fracpart (Dbl.fin (1 / 2)) then
    make_int (Dbl.toInt (Dbl.sub num fracpart))
  else if Dbl.gt fracpart (Dbl.fin (1 / 2)) then
    make_int (Dbl.toInt (Dbl.add (Dbl.sub num fracpart) (Dbl.ofInt 1)))
  else
    let intpart := Dbl.toInt (Dbl.sub num fracpart)
    if Int.tmod intpart 2 ≠ 0 then make_int (wrap_int (intpart + 1))
    else make_int intpart

/-- The primitive `round` (lines 360-386). -/
def prim_round (list : List data_t) : Except fault data_t :=
  match list with
  | [v] =>
    match v with
    | data_t.null => Except.error fault.null_dereference
    | data_t.integer i => Except.ok (make_int i)
    | data_t.decimal num => Except.ok (prim_round_decimal num)
    | _ => Except.ok (make_symbol "error")
  | _ => Except.ok (make_symbol "error")

/-- The loop of `prim_max` (lines 396-410) followed by lines 412-414.  Every cell of a
proper argument list is a pair, so the test of line 397 passes. -/
def prim_max_loop : List data_t → Int → Dbl → Except fault data_t
  | [], imax, dmax =>
    if Dbl.gt (Dbl.ofInt imax) dmax then Except.ok (make_int imax)
    else Except.ok (make_decimal dmax)
  | val :: tail, imax, dmax =>
    match val with
    | data_t.null => Except.error fault.null_dereference
    | data_t.integer ival => prim_max_loop tail (if ival > imax then ival else imax) dmax
    | data_t.decimal dval => prim_max_loop tail imax (if Dbl.gt dval dmax then dval else dmax)
    | _ => prim_max_loop tail imax dmax

/-- The primitive `max` (lines 388-415). -/
def prim_max (list : List data_t) : Except fault data_t :=
  match list with
  | [] => Except.ok (make_symbol "error")
  | _ :: _ => prim_max_loop list 0 (Dbl.fin 0)

/-- The loop of `prim_min` (lines 425-439) followed by lines 441-443. -/
def prim_min_loop : List data_t → Int → Dbl → Except fault data_t
  | [], imin, dmin =>
    if Dbl.lt (Dbl.ofInt imin) dmin then Except.ok (make_int imin)
    else Except.ok (make_decimal dmin)
  | val :: tail, imin, dmin =>
    match val with
    | data_t.null => Except.error fault.null_dereference
    | data_t.integer ival => prim_min_loop tail (if ival < imin then ival else imin) dmin
    | data_t.decimal dval => prim_min_loop tail imin (if Dbl.lt dval dmin then dval else dmin)
    | _ => prim_min_loop tail imin dmin

/-- The primitive `min` (lines 417-444). -/
def prim_min (list : List data_t) : Except fault data_t :=
  match list with
  | [] => Except.ok (make_symbol "error")
  | _ :: _ => prim_min_loop list INT_MAX DBL_MAX

/-- The primitive `floor` (lines 308-321). -/
def prim_floor (list : List data_t) : Except fault data_t :=
  match list with
  | [v] =>
    match v with
    | data_t.null => Except.error fault.null_dereference
    | data_t.integer i => Except.ok (make_int i)
    | data_t.decimal d => Except.ok (make_int (Dbl.toInt (Dbl.floor d)))
    | _ => Except.ok (make_symbol "error")
  | _ => Except.ok (make_symbol "error")

/-! ## Configuration primitives -/

/-- Modelled from the spec: the global configuration variables.  Their declarations
(`defs.h`, `thread.h`) are not among the sources; each is taken to hold the `int` it was
assigned.  `n_bytes_allocated` is the number of bytes of the live cells, which the
allocator keeps. -/
structure config where
  thread_timeout : Int
  mem_lim_soft : Int
  mem_lim_hard : Int
  mem_verbosity : Int
  n_bytes_allocated : Int
  deriving DecidableEq

/-- Modelled from the spec: the allocation that the constructors `make_symbol` and
`make_int` of `data.c` perform through `lisp_data_alloc` (`mem.c`); neither file is among
the sources.  A cell of `size` bytes is refused when `n_bytes_allocated + size` exceeds
`mem_lim_hard`, and `n_bytes_allocated` is then unchanged; otherwise the cell is made and
its size is added to `n_bytes_allocated`.  The size of a cell is decided by `data.c`:
`cell_bytes` gives it. -/
def alloc_cell (cell_bytes : data_t → Nat) (c : config) (new_cell : data_t) :
    Except fault data_t × config :=
  if c.n_bytes_allocated + (cell_bytes new_cell : Int) > c.mem_lim_hard then
    (Except.error fault.allocation_refused, c)
  else
    (Except.ok new_cell,
      { c with n_bytes_allocated := c.n_bytes_allocated + (cell_bytes new_cell : Int) })

/-- The primitive `set-config!` (lines 652-688): the returned value and the
configuration after the call.  The symbol that is returned is allocated after the
assignment. -/
def prim_set_config (cell_bytes : data_t → Nat) (c : config) (list : List data_t) :
    Except fault data_t × config :=
  match list with
  | [var, val] =>
    match var with
    | data_t.symbol var_name =>
      match val with
      | data_t.integer value =>
        if var_name = "thread_timeout" then
          alloc_cell cell_bytes { c with thread_timeout := value } (make_symbol "ok")
        else if var_name = "mem_lim_soft" then
          alloc_cell cell_bytes { c with mem_lim_soft := value } (make_symbol "ok")
        else if var_name = "mem_lim_hard" then
          alloc_cell cell_bytes { c with mem_lim_hard := value } (make_symbol "ok")
        else if var_name = "mem_verbosity" then
          alloc_cell cell_bytes { c with mem_verbosity := value } (make_symbol "ok")
        else
          alloc_cell cell_bytes c (make_symbol "Unknown config variable")
      | _ => alloc_cell cell_bytes c (make_symbol "Config value needs to be an integer")
    | _ => alloc_cell cell_bytes c (make_symbol "Config variable needs to be a symbol")
  | _ => alloc_cell cell_bytes c (make_symbol "error")

/-- The primitive `get-config` (lines 690-714): the returned value and the configuration
after the call.  Line 698 reads `var->type` without testing `var`. -/
def prim_get_config (cell_bytes : data_t → Nat) (c : config) (list : List data_t) :
    Except fault data_t × config :=
  match list with
  | [var] =>
    match var with
    | data_t.null => (Except.error fault.null_dereference, c)
    | data_t.symbol var_name =>
      if var_name = "thread_timeout" then alloc_cell cell_bytes c (make_int c.thread_timeout)
      else if var_name = "mem_lim_soft" then alloc_cell cell_bytes c (make_int c.mem_lim_soft)
      else if var_name = "mem_lim_hard" then alloc_cell cell_bytes c (make_int c.mem_lim_hard)
      else if var_name = "n_bytes_allocated" then
        alloc_cell cell_bytes c (make_int c.n_bytes_allocated)
      else if var_name = "mem_verbosity" then
        alloc_cell cell_bytes c (make_int c.mem_verbosity)
      else alloc_cell cell_bytes c (make_symbol "Unknown config variable")
    | _ => alloc_cell cell_bytes c (make_symbol "Config variable needs to be a symbol")
  | _ => alloc_cell cell_bytes c (make_symbol "error")

/-! ## The registry of primitives -/

/-- A node of the registry, the struct `prim_proc_list`: a name, a native function
(given by a number) and the links to the neighbours.  A link is the address of a node,
its position in the store of nodes, or `NULL`. -/
structure prim_proc_list where
  name : String
  proc : Nat
  next : Option Nat
  prev : Option Nat
  deriving DecidableEq

/-- The registry: the nodes obtained from `malloc`, in the order of their allocation,
and the globals `the_prim_procs` and `last_prim_proc`. -/
structure registry where
  nodes : List prim_proc_list
  the_prim_procs : Option Nat
  last_prim_proc : Option Nat
  deriving DecidableEq

/-- The registry at program start (lines 24-25). -/
def empty_registry : registry := { nodes := [], the_prim_procs := none, last_prim_proc := none }

/-- The assignment `p->next = link` to the node at address `p`. -/
def set_next : List prim_proc_list → Nat → Option Nat → List prim_proc_list
  | [], _, _ => []
  | node :: rest, 0, link => { node with next := link } :: rest
  | node :: rest, p + 1, link => node :: set_next rest p link

/-- The procedure `add_prim_proc` (lines 740-763). -/
def add_prim_proc (r : registry) (name : String) (proc : Nat) : registry :=
  match r.last_prim_proc with
  | none =>
    { nodes := r.nodes ++ [{ name := name, proc := proc, next := none, prev := none }],
      the_prim_procs := some r.nodes.length,
      last_prim_proc := some r.nodes.length }
  | some last =>
    { nodes := set_next r.nodes last (some r.nodes.length)
        ++ [{ name := name, proc := proc, next := none, prev := some last }],
      the_prim_procs := r.the_prim_procs,
      last_prim_proc := some r.nodes.length }

/-- Modelled from the spec: the constructor `make_primitive` of `data.c`, which is not
among the sources; it allocates a `Primitive` cell for a native function. -/
def make_primitive (proc : Nat) : data_t := data_t.prim_procedure proc

/-- The loop shared by `primitive_procedure_names` (lines 720-723) and
`primitive_procedure_objects` (lines 732-735): from the node at `curr_proc` follow the
`prev` links and put `item` of every node in front of `out`.  The first argument bounds
the number of iterations; the result is nothing when the bound is reached or a link
leaves the store. -/
def prim_proc_walk (item : prim_proc_list → data_t) :
    Nat → List prim_proc_list → Option Nat → data_t → Option data_t
  | _, _, none, out => some out
  | 0, _, some _, _ => none
  | fuel + 1, nodes, some p, out =>
    match nodes[p]? with
    | none => none
    | some node => prim_proc_walk item fuel nodes node.prev (cons (item node) out)

/-- The procedure `primitive_procedure_names` (lines 716-726). -/
def primitive_procedure_names (r : registry) : Option data_t :=
  prim_proc_walk (fun node => make_symbol node.name) r.nodes.length r.nodes
    r.last_prim_proc data_t.null

/-- The procedure `primitive_procedure_objects` (lines 728-738). -/
def primitive_procedure_objects (r : registry) : Option data_t :=
  prim_proc_walk
    (fun node => cons (make_symbol "primitive") (cons (make_primitive node.proc) data_t.null))
    r.nodes.length r.nodes r.last_prim_proc data_t.null

/-! ## Vocabulary of the statements -/

/-- The argument is an Integer or a Decimal. -/
def is_number : data_t → Bool
  | data_t.integer _ => true
  | data_t.decimal _ => true
  | _ => false

/-- The argument is a Decimal. -/
def is_decimal : data_t → Bool
  | data_t.decimal _ => true
  | _ => false

/-- The primitive returned a Decimal. -/
def is_decimal_result (r : Except fault data_t) : Prop := ∃ d, r = Except.ok (data_t.decimal d)

instance (r : Except fault data_t) : Decidable (is_decimal_result r) := by
  unfold is_decimal_result
  cases r with
  | error e => exact isFalse (by simp)
  | ok v => cases v <;> first | exact isTrue ⟨_, rfl⟩ | exact isFalse (by simp)

/-- The argument is an Integer. -/
def is_integer : data_t → Bool
  | data_t.integer _ => true
  | _ => false

/-- The argument is a Symbol. -/
def is_symbol : data_t → Bool
  | data_t.symbol _ => true
  | _ => false

/-- The argument is a Pair. -/
def is_pair : data_t → Bool
  | data_t.pair _ _ => true
  | _ => false

/-- The elements of a proper list, a chain of pairs that ends in `NULL`; nothing for an
improper list. -/
def list_elements : data_t → Option (List data_t)
  | data_t.null => some []
  | data_t.pair l r =>
    match list_elements r with
    | some xs => some (l :: xs)
    | none => none
  | _ => none

/-- Modelled from the spec: `length` of `data.c`, which is not among the sources; it
walks the pairs of a list and fails on an improper list. -/
def length : data_t → Option Nat
  | data_t.null => some 0
  | data_t.pair _ r =>
    match length r with
    | some n => some (n + 1)
    | none => none
  | _ => none

/-- The integer `r` is a nearest integer to `q`, and the even one of the two nearest
integers when `q` lies halfway between two integers. -/
def is_banker_rounding (q : ℚ) (r : Int) : Prop :=
  (∀ m : Int, |q - (r : ℚ)| ≤ |q - (m : ℚ)|)
  ∧ (∀ k : Int, q = (k : ℚ) + 1 / 2 → (r = k ∨ r = k + 1) ∧ Even r)

/-- The heap of the example: cell 0 is the pair `(1 . 2)` of the cells 1 and 2, which
hold the integers 1 and 2; every other cell holds the integer 9. -/
def example_heap : heap := fun n =>
  if n = 0 then cell.pair (some 1) (some 2)
  else if n = 1 then cell.integer 1
  else if n = 2 then cell.integer 2
  else cell.integer 9

/-- The names that `set-config!` assigns to. -/
def writable_names : List String :=
  ["thread_timeout", "mem_lim_soft", "mem_lim_hard", "mem_verbosity"]

/-- The registry after the calls `add_prim_proc(name, proc)` for the given entries, in
order, on the empty registry. -/
def register_all (entries : List (String × Nat)) : registry :=
  entries.foldl (fun r e => add_prim_proc r e.1 e.2) empty_registry

/-- The entry `(primitive <proc>)` of a native function. -/
def primitive_object (proc : Nat) : data_t :=
  data_t.pair (data_t.symbol "primitive") (data_t.pair (data_t.prim_procedure proc) data_t.null)

/-- The link to the node allocated just before the node at address `i`: `NULL` for the
first node. -/
def pred_link (i : Nat) : Option Nat := if i = 0 then none else some (i - 1)

/-- The chain of pairs that puts the items of the given nodes, in order, in front of
`out`. -/
def items_onto (item : prim_proc_list → data_t) (nodes : List prim_proc_list) (out : data_t) :
    data_t :=
  nodes.foldr (fun node acc => data_t.pair (item node) acc) out

/-- The configuration of the examples: the limits that `test.c` sets, a timeout of one
second and 512 bytes in use. -/
def example_config : config :=
  { thread_timeout := 1000, mem_lim_soft := 786432, mem_lim_hard := 1048576,
    mem_verbosity := 0, n_bytes_allocated := 512 }

/-- The value of the configuration variable with the given name, if there is one. -/
def read_config (c : config) (name : String) : Option Int :=
  if name = "thread_timeout" then some c.thread_timeout
  else if name = "mem_lim_soft" then some c.mem_lim_soft
  else if name = "mem_lim_hard" then some c.mem_lim_hard
  else if name = "n_bytes_allocated" then some c.n_bytes_allocated
  else if name = "mem_verbosity" then some c.mem_verbosity
  else none

/-- The cell sizes of the examples: one byte for every cell, less than any real cell
takes. -/
def one_byte_cells : data_t → Nat := fun _ => 1

/-! ## Facts about `int` arithmetic -/

theorem wrap_int_of_fits (x : Int) (h : fits_int x) : wrap_int x = x := by
  unfold fits_int INT_MIN INT_MAX at h
  unfold wrap_int
  omega

theorem wrap_int_modEq (x : Int) : wrap_int x ≡ x [ZMOD 4294967296] := by
  unfold wrap_int Int.ModEq
  omega

theorem wrap_int_congr {a b : Int} (h : a ≡ b [ZMOD 4294967296]) : wrap_int a = wrap_int b := by
  unfold Int.ModEq at h
  unfold wrap_int
  omega

theorem wrap_int_add_left (a b : Int) : wrap_int (wrap_int a + b) = wrap_int (a + b) :=
  wrap_int_congr ((wrap_int_modEq a).add_right b)

theorem wrap_int_mul_left (a b : Int) : wrap_int (wrap_int a * b) = wrap_int (a * b) :=
  wrap_int_congr ((wrap_int_modEq a).mul_right b)

theorem wrap_int_zero : wrap_int 0 = 0 := by
  unfold wrap_int
  omega

theorem wrap_int_one : wrap_int 1 = 1 := by
  unfold wrap_int
  omega

/-! ## Integer argument lists -/

theorem dbl_eq_self_fin (q : ℚ) : Dbl.eq (Dbl.fin q) (Dbl.fin q) = true := by
  simp [Dbl.eq]

theorem prim_add_loop_integers (xs : List Int) (i : Int) :
    prim_add_loop (xs.map data_t.integer) (wrap_int i) (Dbl.fin 0)
      = Except.ok (data_t.integer (wrap_int (i + xs.sum))) := by
  induction xs generalizing i with
  | nil => simp [prim_add_loop, prim_add_finish, dbl_eq_self_fin, make_int]
  | cons v vs ih =>
    simp only [List.map_cons, prim_add_loop, List.sum_cons]
    rw [wrap_int_add_left, ih, add_assoc]

theorem prim_mul_loop_integers (xs : List Int) (i : Int) :
    prim_mul_loop (xs.map data_t.integer) (wrap_int i) (Dbl.fin 1)
      = Except.ok (data_t.integer (wrap_int (i * xs.prod))) := by
  induction xs generalizing i with
  | nil => simp [prim_mul_loop, prim_mul_finish, dbl_eq_self_fin, make_int]
  | cons v vs ih =>
    simp only [List.map_cons, prim_mul_loop, List.prod_cons]
    rw [wrap_int_mul_left, ih, mul_assoc]

theorem prim_add_integers (xs : List Int) :
    prim_add (xs.map data_t.integer) = Except.ok (data_t.integer (wrap_int xs.sum)) := by
  have h := prim_add_loop_integers xs 0
  rw [wrap_int_zero, zero_add] at h
  exact h

theorem prim_mul_integers (xs : List Int) :
    prim_mul (xs.map data_t.integer) = Except.ok (data_t.integer (wrap_int xs.prod)) := by
  have h := prim_mul_loop_integers xs 1
  rw [wrap_int_one, one_mul] at h
  exact h

/-! ## Division of two integers -/

theorem toInt_intCast (c : Int) (h : fits_int c) : Dbl.toInt (Dbl.fin (c : ℚ)) = c := by
  simp [Dbl.toInt, h]

theorem prim_div_two_integers (a b : Int) :
    prim_div [data_t.integer a, data_t.integer b]
      = Except.ok (prim_div_finish (Dbl.fin (a : ℚ)) (Dbl.fin (b : ℚ))) := by
  simp [prim_div, prim_div_rest, prim_div_loop, Dbl.mul, Dbl.ofInt]

theorem prim_div_finish_fin (p q : ℚ) (hq : q ≠ 0) :
    prim_div_finish (Dbl.fin p) (Dbl.fin q)
      = if p / q = ((⌊p / q⌋ : Int) : ℚ) then make_int (Dbl.toInt (Dbl.fin (p / q)))
        else make_decimal (Dbl.fin (p / q)) := by
  simp [prim_div_finish, Dbl.eq, Dbl.ofInt, Dbl.div, Dbl.floor, hq]

/-! ## Mixed argument lists -/

theorem prim_sub_loop_decimal (list : List data_t) (h : ∀ x ∈ list, is_number x = true)
    (istart : Int) (dstart : Dbl) (iout : Int) (dout : Dbl) :
    is_decimal_result (prim_sub_loop list dtype_t.decimal istart dstart iout dout) := by
  induction list generalizing dstart iout dout with
  | nil => exact ⟨(dstart.sub dout).sub (Dbl.ofInt iout), by simp [prim_sub_loop, make_decimal]⟩
  | cons x xs ih =>
    have hx := h x (List.mem_cons_self x xs)
    have hxs : ∀ y ∈ xs, is_number y = true := fun y hy => h y (List.mem_cons_of_mem x hy)
    cases x with
    | integer v => simpa only [prim_sub_loop] using ih hxs _ _ _
    | decimal dv => simpa only [prim_sub_loop] using ih hxs _ _ _
    | null => simp [is_number] at hx
    | string s => simp [is_number] at hx
    | symbol s => simp [is_number] at hx
    | pair l r => simp [is_number] at hx
    | prim_procedure n => simp [is_number] at hx

theorem prim_sub_loop_has_decimal (list : List data_t) (h : ∀ x ∈ list, is_number x = true)
    (hdec : ∃ x ∈ list, is_decimal x = true)
    (out_type : dtype_t) (istart : Int) (dstart : Dbl) (iout : Int) (dout : Dbl) :
    is_decimal_result (prim_sub_loop list out_type istart dstart iout dout) := by
  induction list generalizing out_type dstart iout dout with
  | nil =>
    obtain ⟨x, hx, _⟩ := hdec
    simp at hx
  | cons x xs ih =>
    have hx := h x (List.mem_cons_self x xs)
    have hxs : ∀ y ∈ xs, is_number y = true := fun y hy => h y (List.mem_cons_of_mem x hy)
    cases x with
    | integer v =>
      have hdec2 : ∃ y ∈ xs, is_decimal y = true := by
        obtain ⟨y, hy, hyd⟩ := hdec
        rcases List.mem_cons.mp hy with rfl | hy
        · simp [is_decimal] at hyd
        · exact ⟨y, hy, hyd⟩
      simpa only [prim_sub_loop] using ih hxs hdec2 _ _ _ _
    | decimal dv =>
      simpa only [prim_sub_loop] using prim_sub_loop_decimal xs hxs _ _ _ _
    | null => simp [is_number] at hx
    | string s => simp [is_number] at hx
    | symbol s => simp [is_number] at hx
    | pair l r => simp [is_number] at hx
    | prim_procedure n => simp [is_number] at hx

theorem prim_sub_has_decimal (istart0 : Int) (dstart0 : Dbl) (list : List data_t)
    (h : ∀ x ∈ list, is_number x = true) (hdec : ∃ x ∈ list, is_decimal x = true) :
    is_decimal_result (prim_sub istart0 dstart0 list) := by
  cases list with
  | nil =>
    obtain ⟨x, hx, _⟩ := hdec
    simp at hx
  | cons x xs =>
    have hx := h x (List.mem_cons_self x xs)
    have hxs : ∀ y ∈ xs, is_number y = true := fun y hy => h y (List.mem_cons_of_mem x hy)
    cases x with
    | integer v =>
      have hdec2 : ∃ y ∈ xs, is_decimal y = true := by
        obtain ⟨y, hy, hyd⟩ := hdec
        rcases List.mem_cons.mp hy with rfl | hy
        · simp [is_decimal] at hyd
        · exact ⟨y, hy, hyd⟩
      cases xs with
      | nil =>
        obtain ⟨y, hy, _⟩ := hdec2
        simp at hy
      | cons z zs =>
        simpa only [prim_sub, prim_sub_rest] using
          prim_sub_loop_has_decimal (z :: zs) hxs hdec2 _ _ _ _ _
    | decimal dv =>
      cases xs with
      | nil => exact ⟨dv.neg, by simp [prim_sub, prim_sub_rest, make_decimal]⟩
      | cons z zs =>
        simpa only [prim_sub, prim_sub_rest] using
          prim_sub_loop_decimal (z :: zs) hxs _ _ _ _
    | null => simp [is_number] at hx
    | string s => simp [is_number] at hx
    | symbol s => simp [is_number] at hx
    | pair l r => simp [is_number] at hx
    | prim_procedure n => simp [is_number] at hx

theorem prim_comp_eq_non_number (a b : data_t) (ha : a ≠ data_t.null) (hb : b ≠ data_t.null)
    (h : is_number a = false ∨ is_number b = false) :
    prim_comp_eq [a, b] = Except.ok (data_t.symbol "#f") := by
  cases a <;> cases b <;> simp_all [prim_comp_eq, is_number, make_symbol]

/-! ## Facts about `or` and `and` -/

theorem is_equal_make_symbol (a : data_t) (s : String) :
    is_equal a (make_symbol s) = true ↔ a = data_t.symbol s := by
  cases a <;> simp [is_equal, make_symbol]

theorem prim_or_eq (list : List data_t) :
    prim_or list
      = Except.ok (if data_t.symbol "#t" ∈ list then data_t.symbol "#t"
          else data_t.symbol "#f") := by
  induction list with
  | nil => simp [prim_or, make_symbol]
  | cons x xs ih =>
    by_cases hx : x = data_t.symbol "#t"
    · subst hx
      have h : is_equal (data_t.symbol "#t") (data_t.symbol "#t") = true := by
        simp [is_equal]
      simp only [prim_or, make_symbol, h, if_true, List.mem_cons, true_or]
    · have h : ¬ is_equal x (make_symbol "#t") = true :=
        fun h => hx ((is_equal_make_symbol x "#t").mp h)
      have hx2 : ¬ data_t.symbol "#t" = x := fun h => hx h.symm
      simp only [prim_or, h, if_false, ih, List.mem_cons, hx2, false_or]
      trivial

theorem prim_and_eq (list : List data_t) :
    prim_and list
      = Except.ok (if data_t.symbol "#f" ∈ list then data_t.symbol "#f"
          else data_t.symbol "#t") := by
  induction list with
  | nil => simp [prim_and, make_symbol]
  | cons x xs ih =>
    by_cases hx : x = data_t.symbol "#f"
    · subst hx
      have h : is_equal (data_t.symbol "#f") (data_t.symbol "#f") = true := by
        simp [is_equal]
      simp only [prim_and, make_symbol, h, if_true, List.mem_cons, true_or]
    · have h : ¬ is_equal x (make_symbol "#f") = true :=
        fun h => hx ((is_equal_make_symbol x "#f").mp h)
      have hx2 : ¬ data_t.symbol "#f" = x := fun h => hx h.symm
      simp only [prim_and, h, if_false, ih, List.mem_cons, hx2, false_or]
      trivial

/-! ## Rounding -/

theorem tmod_two_ne_zero_iff (a : Int) : Int.tmod a 2 ≠ 0 ↔ ¬ Even a := by
  rw [even_iff_two_dvd]
  constructor
  · intro h hd
    exact h (Int.tmod_eq_zero_of_dvd hd)
  · intro h ht
    apply h
    refine ⟨a.tdiv 2, ?_⟩
    have := Int.tmod_def a 2
    omega

theorem dbl_sub_floor (q : ℚ) :
    Dbl.sub (Dbl.fin q) (Dbl.floor (Dbl.fin q)) = Dbl.fin (q - ((⌊q⌋ : Int) : ℚ)) := by
  simp only [Dbl.sub, Dbl.add, Dbl.neg, Dbl.floor]
  congr 1
  ring

theorem dbl_sub_fracpart (q : ℚ) :
    Dbl.sub (Dbl.fin q) (Dbl.fin (q - ((⌊q⌋ : Int) : ℚ))) = Dbl.fin ((⌊q⌋ : Int) : ℚ) := by
  simp only [Dbl.sub, Dbl.add, Dbl.neg]
  congr 1
  ring

theorem floor_fits_int (q : ℚ) (hlo : (INT_MIN : ℚ) ≤ q) (hhi : q ≤ (INT_MAX : ℚ)) :
    fits_int ⌊q⌋ := by
  constructor
  · exact Int.le_floor.mpr hlo
  · have h : ((⌊q⌋ : Int) : ℚ) ≤ (INT_MAX : ℚ) := le_trans (Int.floor_le q) hhi
    exact_mod_cast h

theorem floor_succ_fits_int (q : ℚ) (hlo : (INT_MIN : ℚ) ≤ q) (hhi : q ≤ (INT_MAX : ℚ))
    (hfrac : ((⌊q⌋ : Int) : ℚ) < q) : fits_int (⌊q⌋ + 1) := by
  have hf := floor_fits_int q hlo hhi
  have h : ((⌊q⌋ : Int) : ℚ) < (INT_MAX : ℚ) := lt_of_lt_of_le hfrac hhi
  have h2 : ⌊q⌋ < INT_MAX := by exact_mod_cast h
  unfold fits_int at hf ⊢
  omega

theorem nearest_of_frac_le (q : ℚ) (hle : q - ((⌊q⌋ : Int) : ℚ) ≤ 1 / 2) (m : Int) :
    |q - ((⌊q⌋ : Int) : ℚ)| ≤ |q - (m : ℚ)| := by
  have h0 : ((⌊q⌋ : Int) : ℚ) ≤ q := Int.floor_le q
  rw [abs_of_nonneg (by linarith)]
  rcases le_or_lt m ⌊q⌋ with hm | hm
  · have hmq : (m : ℚ) ≤ ((⌊q⌋ : Int) : ℚ) := by exact_mod_cast hm
    rw [abs_of_nonneg (by linarith)]
    linarith
  · have hmq : ((⌊q⌋ : Int) : ℚ) + 1 ≤ (m : ℚ) := by exact_mod_cast hm
    rw [abs_of_nonpos (by linarith)]
    linarith

theorem nearest_of_frac_ge (q : ℚ) (hge : 1 / 2 ≤ q - ((⌊q⌋ : Int) : ℚ)) (m : Int) :
    |q - (((⌊q⌋ + 1 : Int)) : ℚ)| ≤ |q - (m : ℚ)| := by
  have h1 : q < ((⌊q⌋ : Int) : ℚ) + 1 := Int.lt_floor_add_one q
  push_cast
  rw [abs_of_nonpos (by linarith)]
  rcases le_or_lt m ⌊q⌋ with hm | hm
  · have hmq : (m : ℚ) ≤ ((⌊q⌋ : Int) : ℚ) := by exact_mod_cast hm
    rw [abs_of_nonneg (by linarith)]
    linarith
  · have hmq : ((⌊q⌋ : Int) : ℚ) + 1 ≤ (m : ℚ) := by exact_mod_cast hm
    rw [abs_of_nonpos (by linarith)]
    linarith

theorem floor_of_half (q : ℚ) (k : Int) (hk : q = (k : ℚ) + 1 / 2) : ⌊q⌋ = k := by
  rw [Int.floor_eq_iff]
  constructor <;> linarith

theorem prim_round_decimal_fin (q : ℚ) (hlo : (INT_MIN : ℚ) ≤ q) (hhi : q ≤ (INT_MAX : ℚ)) :
    ∃ r : Int, prim_round_decimal (Dbl.fin q) = data_t.integer r ∧ is_banker_rounding q r := by
  have hf := floor_fits_int q hlo hhi
  have h0 : ((⌊q⌋ : Int) : ℚ) ≤ q := Int.floor_le q
  have hto : Dbl.toInt (Dbl.fin ((⌊q⌋ : Int) : ℚ)) = ⌊q⌋ := toInt_intCast _ hf
  unfold prim_round_decimal
  simp only [dbl_sub_floor, dbl_sub_fracpart, hto, Dbl.lt, Dbl.gt, Dbl.add, Dbl.ofInt,
    make_int, decide_eq_true_eq]
  by_cases hlt : q - ((⌊q⌋ : Int) : ℚ) < 1 / 2
  · refine ⟨⌊q⌋, by rw [if_pos hlt], fun m => nearest_of_frac_le q (le_of_lt hlt) m, ?_⟩
    intro k hk
    have hfk := floor_of_half q k hk
    rw [hfk] at hlt
    linarith
  · rw [if_neg hlt]
    by_cases hgt : 1 / 2 < q - ((⌊q⌋ : Int) : ℚ)
    · have hsucc := floor_succ_fits_int q hlo hhi (by linarith)
      have hto2 : Dbl.toInt (Dbl.fin (((⌊q⌋ : Int) : ℚ) + ((1 : Int) : ℚ))) = ⌊q⌋ + 1 := by
        have h := toInt_intCast (⌊q⌋ + 1) hsucc
        push_cast at h
        simpa using h
      refine ⟨⌊q⌋ + 1, by rw [if_pos hgt, hto2],
        fun m => nearest_of_frac_ge q (le_of_lt hgt) m, ?_⟩
      intro k hk
      have hfk := floor_of_half q k hk
      rw [hfk] at hgt
      linarith
    · rw [if_neg hgt]
      have hhalf : q - ((⌊q⌋ : Int) : ℚ) = 1 / 2 := le_antisymm (not_lt.mp hgt) (not_lt.mp hlt)
      have hsucc := floor_succ_fits_int q hlo hhi (by linarith)
      by_cases hodd : Int.tmod ⌊q⌋ 2 ≠ 0
      · have hne : ¬ Even ⌊q⌋ := (tmod_two_ne_zero_iff _).mp hodd
        refine ⟨⌊q⌋ + 1, by rw [if_pos hodd, wrap_int_of_fits _ hsucc],
          fun m => nearest_of_frac_ge q (le_of_eq hhalf.symm) m, ?_⟩
        intro k hk
        have hfk := floor_of_half q k hk
        rw [hfk] at hne ⊢
        refine ⟨Or.inr rfl, ?_⟩
        have hk_odd : Odd k := Int.not_even_iff_odd.mp hne
        exact hk_odd.add_one
      · have hev : Even ⌊q⌋ := by
          by_contra hne
          exact hodd ((tmod_two_ne_zero_iff _).mpr hne)
        refine ⟨⌊q⌋, by rw [if_neg hodd],
          fun m => nearest_of_frac_le q (le_of_eq hhalf) m, ?_⟩
        intro k hk
        have hfk := floor_of_half q k hk
        rw [hfk] at hev ⊢
        exact ⟨Or.inl rfl, hev⟩

/-! ## The minimum of integers -/

theorem foldl_min_le_init (ys : List Int) (a : Int) : ys.foldl min a ≤ a := by
  induction ys generalizing a with
  | nil => exact le_refl a
  | cons y ys ih => exact le_trans (ih (min a y)) (min_le_left a y)

theorem foldl_min_le_mem (ys : List Int) (a : Int) : ∀ y ∈ ys, ys.foldl min a ≤ y := by
  induction ys generalizing a with
  | nil => intro y hy; simp at hy
  | cons z zs ih =>
    intro y hy
    rcases List.mem_cons.mp hy with rfl | hy
    · exact le_trans (foldl_min_le_init zs (min a y)) (min_le_right a y)
    · exact ih (min a z) y hy

theorem foldl_min_mem (ys : List Int) (a : Int) :
    ys.foldl min a = a ∨ ys.foldl min a ∈ ys := by
  induction ys generalizing a with
  | nil => exact Or.inl rfl
  | cons z zs ih =>
    rcases ih (min a z) with h | h
    · rcases min_choice a z with hm | hm
      · left
        simp only [List.foldl_cons]
        rw [h, hm]
      · right
        simp only [List.foldl_cons]
        rw [h, hm]
        exact List.mem_cons_self z zs
    · right
      exact List.mem_cons_of_mem z h

theorem prim_min_loop_integers (ys : List Int) (imin : Int) :
    prim_min_loop (ys.map data_t.integer) imin DBL_MAX
      = prim_min_loop [] (ys.foldl min imin) DBL_MAX := by
  induction ys generalizing imin with
  | nil => rfl
  | cons y ys ih =>
    have hmin : (if y < imin then y else imin) = min imin y := by
      rw [min_def]
      split_ifs <;> omega
    simp only [List.map_cons, prim_min_loop, List.foldl_cons, hmin]
    exact ih (min imin y)

theorem prim_min_loop_nil_int (m : Int) (hm : m ≤ INT_MAX) :
    prim_min_loop [] m DBL_MAX = Except.ok (data_t.integer m) := by
  have h1 : (m : ℚ) ≤ 2147483647 := by
    unfold INT_MAX at hm
    exact_mod_cast hm
  have h2 : (2147483647 : ℚ) < (2 : ℚ) ^ 1024 - (2 : ℚ) ^ 971 := by norm_num
  have h3 : (m : ℚ) < (2 : ℚ) ^ 1024 - (2 : ℚ) ^ 971 := lt_of_le_of_lt h1 h2
  simp [prim_min_loop, Dbl.lt, Dbl.ofInt, DBL_MAX, make_int, h3]

theorem prim_min_integers (x : Int) (xs : List Int) (h : ∀ y ∈ x :: xs, fits_int y) :
    ∃ m, prim_min ((x :: xs).map data_t.integer) = Except.ok (data_t.integer m)
      ∧ m ∈ x :: xs ∧ ∀ y ∈ x :: xs, m ≤ y := by
  have hx : x ≤ INT_MAX := (h x (List.mem_cons_self x xs)).2
  have hle := foldl_min_le_mem (x :: xs) INT_MAX
  have hm : (x :: xs).foldl min INT_MAX ≤ INT_MAX := foldl_min_le_init _ _
  refine ⟨(x :: xs).foldl min INT_MAX, ?_, ?_, hle⟩
  · have h1 := prim_min_loop_integers (x :: xs) INT_MAX
    rw [prim_min_loop_nil_int _ hm] at h1
    simpa [prim_min] using h1
  · rcases foldl_min_mem (x :: xs) INT_MAX with h1 | h1
    · have h2 := hle x (List.mem_cons_self x xs)
      rw [h1] at h2
      have h3 : x = INT_MAX := le_antisymm hx h2
      rw [h1, ← h3]
      exact List.mem_cons_self x xs
    · exact h1

/-! ## Facts about the registry -/

theorem set_next_length (nodes : List prim_proc_list) (p : Nat) (link : Option Nat) :
    (set_next nodes p link).length = nodes.length := by
  induction nodes generalizing p with
  | nil => rfl
  | cons node rest ih =>
    cases p with
    | zero => rfl
    | succ p => simp [set_next, ih]

theorem set_next_map {β : Type} (f : prim_proc_list → β)
    (hf : ∀ (node : prim_proc_list) (link : Option Nat), f { node with next := link } = f node)
    (nodes : List prim_proc_list) (p : Nat) (link : Option Nat) :
    (set_next nodes p link).map f = nodes.map f := by
  induction nodes generalizing p with
  | nil => rfl
  | cons node rest ih =>
    cases p with
    | zero => simp [set_next, hf]
    | succ p => simp [set_next, ih]

theorem register_all_snoc (entries : List (String × Nat)) (e : String × Nat) :
    register_all (entries ++ [e]) = add_prim_proc (register_all entries) e.1 e.2 := by
  simp [register_all, List.foldl_append]

theorem range_map_pred_link_succ (n : Nat) :
    (List.range (n + 1)).map pred_link = (List.range n).map pred_link ++ [pred_link n] := by
  simp [List.range_succ]

theorem register_all_spec (entries : List (String × Nat)) :
    (register_all entries).nodes.map (fun node => node.name) = entries.map (fun e => e.1)
    ∧ (register_all entries).nodes.map (fun node => node.proc) = entries.map (fun e => e.2)
    ∧ (register_all entries).nodes.map (fun node => node.prev)
        = (List.range entries.length).map pred_link
    ∧ (register_all entries).last_prim_proc = pred_link entries.length
    ∧ (register_all entries).nodes.length = entries.length := by
  induction entries using List.reverseRecOn with
  | nil => exact ⟨rfl, rfl, rfl, rfl, rfl⟩
  | append_singleton es e ih =>
    obtain ⟨hname, hproc, hprev, hlast, hlen⟩ := ih
    rw [register_all_snoc]
    cases hl : (register_all es).last_prim_proc with
    | none =>
      have hes : es.length = 0 := by
        rw [hl] at hlast
        unfold pred_link at hlast
        by_contra hne
        simp [hne] at hlast
      refine ⟨?_, ?_, ?_, ?_, ?_⟩
      · simp [add_prim_proc, hl, hname]
      · simp [add_prim_proc, hl, hproc]
      · simp [add_prim_proc, hl, hprev, range_map_pred_link_succ, pred_link, hes]
      · simp [add_prim_proc, hl, hlen, pred_link]
      · simp [add_prim_proc, hl, hlen]
    | some last =>
      have hes : es.length ≠ 0 ∧ last = es.length - 1 := by
        rw [hl] at hlast
        unfold pred_link at hlast
        by_cases hz : es.length = 0
        · simp [hz] at hlast
        · simp [hz] at hlast
          exact ⟨hz, hlast⟩
      refine ⟨?_, ?_, ?_, ?_, ?_⟩
      · simp only [add_prim_proc, hl, List.map_append, List.map_cons, List.map_nil]
        rw [set_next_map (fun node => node.name) (fun _ _ => rfl), hname]
      · simp only [add_prim_proc, hl, List.map_append, List.map_cons, List.map_nil]
        rw [set_next_map (fun node => node.proc) (fun _ _ => rfl), hproc]
      · simp only [add_prim_proc, hl, List.map_append, List.map_cons, List.map_nil,
          List.length_append, List.length_singleton, range_map_pred_link_succ]
        rw [set_next_map (fun node => node.prev) (fun _ _ => rfl), hprev]
        simp [pred_link, hes.1, hes.2]
      · simp [add_prim_proc, hl, hlen, pred_link]
      · simp [add_prim_proc, hl, hlen, set_next_length]

theorem prev_of_getElem (nodes : List prim_proc_list)
    (hprev : nodes.map (fun node => node.prev) = (List.range nodes.length).map pred_link)
    (i : Nat) (node : prim_proc_list) (hnode : nodes[i]? = some node) :
    node.prev = pred_link i := by
  have hi : i < nodes.length := (List.getElem?_eq_some.mp hnode).1
  have h1 : (nodes.map (fun node => node.prev))[i]? = some node.prev := by
    simp [hnode]
  rw [hprev] at h1
  simp [List.getElem?_range hi] at h1
  exact h1.symm

theorem prim_proc_walk_spec (item : prim_proc_list → data_t) (nodes : List prim_proc_list)
    (hprev : nodes.map (fun node => node.prev) = (List.range nodes.length).map pred_link)
    (i : Nat) (hi : i < nodes.length) (out : data_t) :
    prim_proc_walk item (i + 1) nodes (some i) out
      = some (items_onto item (nodes.take (i + 1)) out) := by
  induction i generalizing out with
  | zero =>
    have hnode : nodes[0]? = some nodes[0] := List.getElem?_eq_getElem hi
    have hp := prev_of_getElem nodes hprev 0 _ hnode
    have htake : nodes.take 1 = [nodes[0]] := by
      cases nodes with
      | nil => simp at hi
      | cons x xs => simp
    simp only [prim_proc_walk, hnode, hp, pred_link, if_true, htake, items_onto, cons,
      List.foldr_cons, List.foldr_nil, zero_add]
  | succ i ih =>
    have hnode : nodes[i + 1]? = some nodes[i + 1] := List.getElem?_eq_getElem hi
    have hp := prev_of_getElem nodes hprev (i + 1) _ hnode
    have hp2 : nodes[i + 1].prev = some i := by
      rw [hp]
      simp [pred_link]
    have htake : nodes.take (i + 1 + 1) = nodes.take (i + 1) ++ [nodes[i + 1]] := by
      rw [List.take_succ, hnode]
      rfl
    rw [prim_proc_walk]
    simp only [hnode, hp2]
    rw [ih (by omega), htake]
    simp only [items_onto, cons, List.foldr_append, List.foldr_cons, List.foldr_nil]

theorem list_elements_items_onto (item : prim_proc_list → data_t) (nodes : List prim_proc_list) :
    list_elements (items_onto item nodes data_t.null) = some (nodes.map item)
    ∧ length (items_onto item nodes data_t.null) = some nodes.length := by
  induction nodes with
  | nil => exact ⟨rfl, rfl⟩
  | cons node rest ih =>
    obtain ⟨h1, h2⟩ := ih
    unfold items_onto at h1 h2 ⊢
    simp [list_elements, length, h1, h2]

theorem registry_walk (item : prim_proc_list → data_t) (entries : List (String × Nat)) :
    prim_proc_walk item (register_all entries).nodes.length (register_all entries).nodes
        (register_all entries).last_prim_proc data_t.null
      = some (items_onto item (register_all entries).nodes data_t.null) := by
  obtain ⟨_, _, hprev, hlast, hlen⟩ := register_all_spec entries
  rw [← hlen] at hprev hlast
  cases hn : (register_all entries).nodes.length with
  | zero =>
    have hnil : (register_all entries).nodes = [] := List.length_eq_zero.mp hn
    rw [hlast, hn, hnil]
    simp [pred_link, prim_proc_walk, items_onto]
  | succ n =>
    rw [hlast, hn]
    have h := prim_proc_walk_spec item (register_all entries).nodes hprev n (by omega)
      data_t.null
    have htake : (register_all entries).nodes.take (n + 1) = (register_all entries).nodes := by
      rw [← hn]
      exact List.take_length _
    rw [htake] at h
    simpa [pred_link] using h

/-! ## Facts about the allocation of results -/

theorem alloc_cell_spec (cell_bytes : data_t → Nat) (c : config) (x : data_t) :
    (alloc_cell cell_bytes c x).2.thread_timeout = c.thread_timeout
    ∧ (alloc_cell cell_bytes c x).2.mem_lim_soft = c.mem_lim_soft
    ∧ (alloc_cell cell_bytes c x).2.mem_lim_hard = c.mem_lim_hard
    ∧ (alloc_cell cell_bytes c x).2.mem_verbosity = c.mem_verbosity
    ∧ (alloc_cell cell_bytes c x
          = (Except.ok x,
              { c with n_bytes_allocated := c.n_bytes_allocated + (cell_bytes x : Int) })
        ∨ alloc_cell cell_bytes c x = (Except.error fault.allocation_refused, c))
    ∧ (c.n_bytes_allocated + (cell_bytes x : Int) ≤ c.mem_lim_hard →
        (alloc_cell cell_bytes c x).1 = Except.ok x) := by
  unfold alloc_cell
  by_cases h : c.n_bytes_allocated + (cell_bytes x : Int) > c.mem_lim_hard
  · rw [if_pos h]
    refine ⟨rfl, rfl, rfl, rfl, Or.inr rfl, ?_⟩
    intro h2
    omega
  · rw [if_neg h]
    exact ⟨rfl, rfl, rfl, rfl, Or.inl rfl, fun _ => rfl⟩

theorem prim_get_config_value (cell_bytes : data_t → Nat) (c : config) (name : String)
    (v : Int) (hread : read_config c name = some v)
    (hroom : c.n_bytes_allocated + (cell_bytes (data_t.integer v) : Int) ≤ c.mem_lim_hard) :
    (prim_get_config cell_bytes c [data_t.symbol name]).1 = Except.ok (data_t.integer v) := by
  unfold read_config at hread
  unfold prim_get_config
  simp only
  split_ifs at hread ⊢ with h1 h2 h3 h4 h5 <;>
    (simp only [Option.some.injEq] at hread
     subst hread
     exact (alloc_cell_spec cell_bytes c _).2.2.2.2.2 hroom)

theorem prim_set_config_assigns (cell_bytes : data_t → Nat) (c : config) (name : String)
    (hname : name ∈ writable_names) (v : Int) :
    ∃ c1 : config,
      prim_set_config cell_bytes c [data_t.symbol name, data_t.integer v]
        = alloc_cell cell_bytes c1 (data_t.symbol "ok")
      ∧ read_config c1 name = some v
      ∧ (∀ other : String, other ≠ name → read_config c1 other = read_config c other)
      ∧ c1.n_bytes_allocated = c.n_bytes_allocated := by
  simp only [writable_names, List.mem_cons, List.mem_singleton, List.not_mem_nil,
    or_false] at hname
  rcases hname with rfl | rfl | rfl | rfl
  · refine ⟨{ c with thread_timeout := v }, ?_, ?_, ?_, rfl⟩
    · simp [prim_set_config, make_symbol]
    · simp [read_config]
    · intro other hne
      simp [read_config, hne]
  · refine ⟨{ c with mem_lim_soft := v }, ?_, ?_, ?_, rfl⟩
    · simp [prim_set_config, make_symbol]
    · simp [read_config]
    · intro other hne
      simp [read_config, hne]
  · refine ⟨{ c with mem_lim_hard := v }, ?_, ?_, ?_, rfl⟩
    · simp [prim_set_config, make_symbol]
    · simp [read_config]
    · intro other hne
      simp [read_config, hne]
  · refine ⟨{ c with mem_verbosity := v }, ?_, ?_, ?_, rfl⟩
    · simp [prim_set_config, make_symbol]
    · simp [read_config]
    · intro other hne
      simp [read_config, hne]

theorem read_config_alloc_cell (cell_bytes : data_t → Nat) (c : config) (x : data_t)
    (name : String) (hname : name ≠ "n_bytes_allocated") :
    read_config (alloc_cell cell_bytes c x).2 name = read_config c name := by
  obtain ⟨h1, h2, h3, h4, _, _⟩ := alloc_cell_spec cell_bytes c x
  simp [read_config, h1, h2, h3, h4, hname]

theorem prim_set_config_failure_alloc (cell_bytes : data_t → Nat) (c : config)
    (var val : data_t)
    (h : is_symbol var = false ∨ is_integer val = false
      ∨ ∃ s, var = data_t.symbol s ∧ s ∉ writable_names) :
    ∃ msg, msg ≠ "ok"
      ∧ prim_set_config cell_bytes c [var, val] = alloc_cell cell_bytes c (data_t.symbol msg) := by
  have hunknown : ∀ s : String, s ∉ writable_names →
      ∃ msg, msg ≠ "ok" ∧ prim_set_config cell_bytes c [data_t.symbol s, val]
        = alloc_cell cell_bytes c (data_t.symbol msg) := by
    intro s hs
    simp only [writable_names, List.mem_cons, List.mem_singleton, List.not_mem_nil,
      or_false, not_or] at hs
    obtain ⟨h1, h2, h3, h4⟩ := hs
    cases val with
    | integer value =>
      exact ⟨"Unknown config variable", by decide,
        by simp [prim_set_config, make_symbol, h1, h2, h3, h4]⟩
    | null => exact ⟨"Config value needs to be an integer", by decide, rfl⟩
    | decimal d => exact ⟨"Config value needs to be an integer", by decide, rfl⟩
    | string t => exact ⟨"Config value needs to be an integer", by decide, rfl⟩
    | symbol t => exact ⟨"Config value needs to be an integer", by decide, rfl⟩
    | pair l r => exact ⟨"Config value needs to be an integer", by decide, rfl⟩
    | prim_procedure n => exact ⟨"Config value needs to be an integer", by decide, rfl⟩
  have hnotsym : is_symbol var = false →
      ∃ msg, msg ≠ "ok" ∧ prim_set_config cell_bytes c [var, val]
        = alloc_cell cell_bytes c (data_t.symbol msg) := by
    intro hv
    cases var with
    | symbol s => simp [is_symbol] at hv
    | null => exact ⟨"Config variable needs to be a symbol", by decide, rfl⟩
    | integer i => exact ⟨"Config variable needs to be a symbol", by decide, rfl⟩
    | decimal d => exact ⟨"Config variable needs to be a symbol", by decide, rfl⟩
    | string t => exact ⟨"Config variable needs to be a symbol", by decide, rfl⟩
    | pair l r => exact ⟨"Config variable needs to be a symbol", by decide, rfl⟩
    | prim_procedure n => exact ⟨"Config variable needs to be a symbol", by decide, rfl⟩
  rcases h with h | h | ⟨s, rfl, hs⟩
  · exact hnotsym h
  · by_cases hv : is_symbol var = false
    · exact hnotsym hv
    · cases var with
      | symbol s =>
        cases val with
        | integer value => simp [is_integer] at h
        | null => exact ⟨"Config value needs to be an integer", by decide, rfl⟩
        | decimal d => exact ⟨"Config value needs to be an integer", by decide, rfl⟩
        | string t => exact ⟨"Config value needs to be an integer", by decide, rfl⟩
        | symbol t => exact ⟨"Config value needs to be an integer", by decide, rfl⟩
        | pair l r => exact ⟨"Config value needs to be an integer", by decide, rfl⟩
        | prim_procedure n => exact ⟨"Config value needs to be an integer", by decide, rfl⟩
      | null => simp [is_symbol] at hv
      | integer i => simp [is_symbol] at hv
      | decimal d => simp [is_symbol] at hv
      | string t => simp [is_symbol] at hv
      | pair l r => simp [is_symbol] at hv
      | prim_procedure n => simp [is_symbol] at hv
  · exact hunknown s hs

/-! ## The claims -/

/-- C1: for every list of integers, empty or not, whose sum fits an `int`, `prim_add`
returns the Integer sum of the elements, and for every list whose product fits, `prim_mul`
returns the Integer product; the empty list gives 0 and 1, and `(+ 1 2 3)` is 6. -/
theorem C1_prim_add_mul_integers (xs : List Int) :
    (fits_int xs.sum → prim_add (xs.map data_t.integer) = Except.ok (data_t.integer xs.sum))
    ∧ (fits_int xs.prod → prim_mul (xs.map data_t.integer) = Except.ok (data_t.integer xs.prod))
    ∧ prim_add [] = Except.ok (data_t.integer 0)
    ∧ prim_mul [] = Except.ok (data_t.integer 1)
    ∧ prim_add [data_t.integer 1, data_t.integer 2, data_t.integer 3]
        = Except.ok (data_t.integer 6) := by
  refine ⟨fun h => ?_, fun h => ?_, ?_, ?_, ?_⟩
  · rw [prim_add_integers, wrap_int_of_fits _ h]
  · rw [prim_mul_integers, wrap_int_of_fits _ h]
  · exact prim_add_integers []
  · exact prim_mul_integers []
  · exact prim_add_integers [1, 2, 3]

/-- C1 at the list `(4 -5 6)`: the sum 5 and the product -120 fit an `int`. -/
theorem C1_prim_add_mul_integers_witness :
    prim_add [data_t.integer 4, data_t.integer (-5), data_t.integer 6] = Except.ok (data_t.integer 5)
    ∧ prim_mul [data_t.integer 4, data_t.integer (-5), data_t.integer 6]
        = Except.ok (data_t.integer (-120)) :=
  ⟨(C1_prim_add_mul_integers [4, -5, 6]).1 (by decide),
   (C1_prim_add_mul_integers [4, -5, 6]).2.1 (by decide)⟩

/-- C2: for every integer `n` (a value of type `int`), `(+ n 0)` and `(* n 1)` return the
Integer `n` and `(- n n)` returns the Integer 0. -/
theorem C2_arithmetic_identities (n : Int) (hn : fits_int n) (istart0 : Int) (dstart0 : Dbl) :
    prim_add [data_t.integer n, data_t.integer 0] = Except.ok (data_t.integer n)
    ∧ prim_mul [data_t.integer n, data_t.integer 1] = Except.ok (data_t.integer n)
    ∧ prim_sub istart0 dstart0 [data_t.integer n, data_t.integer n]
        = Except.ok (data_t.integer 0) := by
  refine ⟨?_, ?_, ?_⟩
  · have h := prim_add_integers [n, 0]
    simp only [List.map_cons, List.map_nil, List.sum_cons, List.sum_nil, add_zero] at h
    rw [h, wrap_int_of_fits n hn]
  · have h := prim_mul_integers [n, 1]
    simp only [List.map_cons, List.map_nil, List.prod_cons, List.prod_nil, mul_one] at h
    rw [h, wrap_int_of_fits n hn]
  · simp only [prim_sub, prim_sub_rest, prim_sub_loop, make_int, if_true, zero_add]
    rw [wrap_int_of_fits n hn, sub_self, wrap_int_zero]

/-- C2 at `n = -7`. -/
theorem C2_arithmetic_identities_witness :
    prim_add [data_t.integer (-7), data_t.integer 0] = Except.ok (data_t.integer (-7))
    ∧ prim_mul [data_t.integer (-7), data_t.integer 1] = Except.ok (data_t.integer (-7))
    ∧ prim_sub 0 Dbl.nan [data_t.integer (-7), data_t.integer (-7)]
        = Except.ok (data_t.integer 0) :=
  C2_arithmetic_identities (-7) (by decide) 0 Dbl.nan

/-- C3: on `(- 5.0 1.0)` the loop of `prim_sub` overwrites `dstart` with the
uninitialised `istart`, so the result is the Decimal `istart - 1` for whatever `istart`
happens to hold, and not the difference 4. -/
theorem C3_prim_sub_decimal_head (istart0 : Int) (dstart0 : Dbl) :
    prim_sub istart0 dstart0 [data_t.decimal (Dbl.fin 5), data_t.decimal (Dbl.fin 1)]
      = Except.ok (data_t.decimal (Dbl.fin ((istart0 : ℚ) - 1))) := by
  simp [prim_sub, prim_sub_rest, prim_sub_loop, make_decimal, Dbl.sub, Dbl.add, Dbl.neg,
    Dbl.ofInt]
  ring

/-- C4: `(+ 1 2.0)` returns the Integer 1, not a number of value 3: the integer-valued
branch of `prim_add` subtracts the integer accumulator from the decimal one. -/
theorem C4_prim_add_mixed :
    prim_add [data_t.integer 1, data_t.decimal (Dbl.fin 2)] = Except.ok (data_t.integer 1) := by
  simp [prim_add, prim_add_loop, prim_add_finish, make_int, make_decimal, Dbl.sub, Dbl.add,
    Dbl.neg, Dbl.ofInt, Dbl.eq, Dbl.floor, Dbl.toInt, wrap_int, fits_int, INT_MIN, INT_MAX]
  norm_num

/-- C7: the reciprocal of zero is not an error: `(/ 0)` and `(/ 0.0)` return the Decimal
`1 / 0`, an infinity, where a zero divisor after the first argument gives the error
symbol, as in `(/ 1 0)`. -/
theorem C7_prim_div_reciprocal_of_zero :
    prim_div [data_t.integer 0] = Except.ok (data_t.decimal Dbl.pinf)
    ∧ prim_div [data_t.decimal (Dbl.fin 0)] = Except.ok (data_t.decimal Dbl.pinf)
    ∧ prim_div [data_t.integer 1, data_t.integer 0] = Except.ok (data_t.symbol "error") := by
  refine ⟨?_, ?_, ?_⟩
  · simp [prim_div, prim_div_rest, make_decimal, Dbl.div, Dbl.ofInt, Dbl.inf_of_sign]
  · simp [prim_div, prim_div_rest, make_decimal, Dbl.div, Dbl.ofInt, Dbl.inf_of_sign]
  · simp [prim_div, prim_div_rest, prim_div_loop, prim_div_finish, make_symbol, Dbl.mul,
      Dbl.ofInt, Dbl.eq]

/-- C8: for all integers `a` and `b` exactly one of `(< a b)`, `(= a b)`, `(> a b)`
returns `#t`, the other two return `#f`, and the one returning `#t` is the one that
holds of `a` and `b`. -/
theorem C8_comparison_trichotomy (a b : Int) :
    (a < b
      ∧ prim_comp_less [data_t.integer a, data_t.integer b] = Except.ok (data_t.symbol "#t")
      ∧ prim_comp_eq [data_t.integer a, data_t.integer b] = Except.ok (data_t.symbol "#f")
      ∧ prim_comp_more [data_t.integer a, data_t.integer b] = Except.ok (data_t.symbol "#f"))
    ∨ (a = b
      ∧ prim_comp_less [data_t.integer a, data_t.integer b] = Except.ok (data_t.symbol "#f")
      ∧ prim_comp_eq [data_t.integer a, data_t.integer b] = Except.ok (data_t.symbol "#t")
      ∧ prim_comp_more [data_t.integer a, data_t.integer b] = Except.ok (data_t.symbol "#f"))
    ∨ (a > b
      ∧ prim_comp_less [data_t.integer a, data_t.integer b] = Except.ok (data_t.symbol "#f")
      ∧ prim_comp_eq [data_t.integer a, data_t.integer b] = Except.ok (data_t.symbol "#f")
      ∧ prim_comp_more [data_t.integer a, data_t.integer b] = Except.ok (data_t.symbol "#t")) := by
  rcases lt_trichotomy a b with h | h | h
  · left
    have h1 : ¬ a = b := by omega
    have h2 : ¬ b < a := by omega
    simp [prim_comp_less, prim_comp_eq, prim_comp_more, bool_symbol, make_symbol, h, h1, h2]
  · right; left
    have h1 : ¬ a < b := by omega
    have h2 : ¬ b < a := by omega
    simp [prim_comp_less, prim_comp_eq, prim_comp_more, bool_symbol, make_symbol, h]
  · right; right
    have h1 : ¬ a = b := by omega
    have h2 : ¬ a < b := by omega
    simp [prim_comp_less, prim_comp_eq, prim_comp_more, bool_symbol, make_symbol, h, h1, h2]

/-- C9: when an argument of `=` is the empty list, `prim_comp_eq` reads the type tag
through the `NULL` pointer instead of returning `#f`. -/
theorem C9_comp_eq_empty_list :
    prim_comp_eq [data_t.null, data_t.integer 1] = Except.error fault.null_dereference
    ∧ prim_comp_eq [data_t.integer 1, data_t.null] = Except.error fault.null_dereference
    ∧ prim_comp_eq [data_t.null, data_t.null] = Except.error fault.null_dereference := by
  simp [prim_comp_eq]

/-- C10: for all values `a` and `b`, `car` of the result of `(cons a b)` is `a` and `cdr`
of it is `b`. -/
theorem C10_car_cdr_cons (a b : data_t) :
    ∃ p, prim_cons [a, b] = Except.ok p
      ∧ prim_car [p] = Except.ok a ∧ prim_cdr [p] = Except.ok b :=
  ⟨data_t.pair a b, by simp [prim_cons, cons], by simp [prim_car], by simp [prim_cdr]⟩

/-- C11: for every argument list of `k` values `prim_list` returns a proper list whose
elements are exactly those values in the same order, so its length is `k`; `(list)`
without arguments is the empty list. -/
theorem C11_prim_list (xs : List data_t) :
    (∃ r, prim_list xs = Except.ok r
      ∧ list_elements r = some xs ∧ length r = some xs.length)
    ∧ prim_list [] = Except.ok data_t.null := by
  refine ⟨?_, rfl⟩
  induction xs with
  | nil => exact ⟨data_t.null, rfl, rfl, rfl⟩
  | cons x xs ih =>
    obtain ⟨r, hr, he, hl⟩ := ih
    refine ⟨cons x r, ?_, ?_, ?_⟩
    · simp [prim_list, hr]
    · simp [cons, list_elements, he]
    · simp [cons, length, hl]

/-- C12: for a pair cell `p = (a . b)` and a value `v`, `set-car!` stores `v` in the car
of `p`, leaves the cdr `b` and every other cell as they were and returns `p` itself;
`set-cdr!` does the same with the cdr; when the target is the empty list or a cell that
is not a pair, both return the error symbol and leave the heap as it was. -/
theorem C12_set_car_set_cdr (h : heap) (p : Nat) (a b v : Option Nat)
    (hp : h p = cell.pair a b) (t : Nat) (ht : ∀ l r, h t ≠ cell.pair l r) :
    prim_set_car h [some p, v]
      = (returned.existing (some p), Function.update h p (cell.pair v b))
    ∧ prim_set_cdr h [some p, v]
      = (returned.existing (some p), Function.update h p (cell.pair a v))
    ∧ (prim_set_car h [some p, v]).2 p = cell.pair v b
    ∧ (prim_set_cdr h [some p, v]).2 p = cell.pair a v
    ∧ (∀ q, q ≠ p → (prim_set_car h [some p, v]).2 q = h q
        ∧ (prim_set_cdr h [some p, v]).2 q = h q)
    ∧ prim_set_car h [some t, v] = (returned.fresh (cell.symbol "error"), h)
    ∧ prim_set_cdr h [some t, v] = (returned.fresh (cell.symbol "error"), h)
    ∧ prim_set_car h [none, v] = (returned.fresh (cell.symbol "error"), h)
    ∧ prim_set_cdr h [none, v] = (returned.fresh (cell.symbol "error"), h) := by
  have hcar : prim_set_car h [some p, v]
      = (returned.existing (some p), Function.update h p (cell.pair v b)) := by
    simp [prim_set_car, hp]
  have hcdr : prim_set_cdr h [some p, v]
      = (returned.existing (some p), Function.update h p (cell.pair a v)) := by
    simp [prim_set_cdr, hp]
  refine ⟨hcar, hcdr, ?_, ?_, ?_, ?_, ?_, rfl, rfl⟩
  · rw [hcar]
    simp
  · rw [hcdr]
    simp
  · intro q hq
    rw [hcar, hcdr]
    simp [Function.update, hq]
  · cases hc : h t with
    | pair l r => exact absurd hc (ht l r)
    | integer i => simp [prim_set_car, hc]
    | decimal d => simp [prim_set_car, hc]
    | string s => simp [prim_set_car, hc]
    | symbol s => simp [prim_set_car, hc]
    | prim_procedure n => simp [prim_set_car, hc]
  · cases hc : h t with
    | pair l r => exact absurd hc (ht l r)
    | integer i => simp [prim_set_cdr, hc]
    | decimal d => simp [prim_set_cdr, hc]
    | string s => simp [prim_set_cdr, hc]
    | symbol s => simp [prim_set_cdr, hc]
    | prim_procedure n => simp [prim_set_cdr, hc]

/-- C12 on the pair `p = (1 . 2)`: after `(set-car! p 9)` the cell of `p` is `(9 . 2)`,
and `set-car!` on the integer cell 1 gives the error symbol. -/
theorem C12_set_car_set_cdr_witness :
    (prim_set_car example_heap [some 0, some 3]).1 = returned.existing (some 0)
    ∧ (prim_set_car example_heap [some 0, some 3]).2 0 = cell.pair (some 3) (some 2)
    ∧ example_heap 3 = cell.integer 9
    ∧ prim_set_car example_heap [some 1, some 3]
        = (returned.fresh (cell.symbol "error"), example_heap) := by
  have h := C12_set_car_set_cdr example_heap 0 (some 1) (some 2) (some 3) rfl 1
    (by intro l r; simp [example_heap])
  refine ⟨?_, h.2.2.1, rfl, h.2.2.2.2.2.1⟩
  rw [h.1]

/-- C13, as stated, fails: `(car 1)` and `(cdr 1)` return the empty list, not the error
symbol. -/
theorem C13_car_of_integer :
    prim_car [data_t.integer 1] = Except.ok data_t.null
    ∧ prim_cdr [data_t.integer 1] = Except.ok data_t.null
    ∧ prim_car [data_t.integer 1] ≠ Except.ok (data_t.symbol "error")
    ∧ prim_cdr [data_t.integer 1] ≠ Except.ok (data_t.symbol "error") := by
  simp [prim_car, prim_cdr]

/-- C13, amended: `car` or `cdr` applied to exactly one argument that is not a pair (a
number, a symbol, a string or the empty list) returns the empty list, the `NULL`
pointer. -/
theorem C13_car_cdr_non_pair (v : data_t) (hv : is_pair v = false) :
    prim_car [v] = Except.ok data_t.null ∧ prim_cdr [v] = Except.ok data_t.null := by
  cases v <;> simp_all [prim_car, prim_cdr, is_pair]

/-- C13, amended, at the symbol `a`. -/
theorem C13_car_cdr_non_pair_witness :
    prim_car [data_t.symbol "a"] = Except.ok data_t.null
    ∧ prim_cdr [data_t.symbol "a"] = Except.ok data_t.null :=
  C13_car_cdr_non_pair (data_t.symbol "a") rfl

/-- C14: `string?` does not check its arity.  With two arguments it answers for the
first one, `(string? "abc" 1)` is `#t`, where `symbol?` returns the error symbol; with
exactly one argument it never looks at it: the answer is that for the uninitialised
pointer `str`, so `(string? "abc")` is `#f` when `str` happens to be `NULL`. -/
theorem C14_prim_is_str (str0 : data_t) (car_null : Except fault data_t) (v : data_t) :
    prim_is_str str0 car_null [data_t.string "abc", data_t.integer 1]
      = Except.ok (data_t.symbol "#t")
    ∧ prim_is_sym [data_t.symbol "abc", data_t.integer 1] = Except.ok (data_t.symbol "error")
    ∧ prim_is_str str0 car_null [v] = Except.ok (prim_is_str_test str0)
    ∧ prim_is_str data_t.null car_null [data_t.string "abc"]
      = Except.ok (data_t.symbol "#f") := by
  simp [prim_is_str, prim_is_str_test, prim_is_sym, make_symbol]

/-- C15: for every single argument `v`, `number?` returns `#t` iff `v` is an integer or a
decimal, `integer?` iff `v` is an integer, `symbol?` iff `v` is a symbol and `pair?` iff
`v` is a pair, and `#f` otherwise, also for the empty list; so `integer?` implies
`number?` and at most one of `number?`, `symbol?`, `pair?` holds of `v`. -/
theorem C15_type_predicates (v : data_t) :
    prim_is_num [v] = Except.ok (bool_symbol (is_number v))
    ∧ prim_is_int [v] = Except.ok (bool_symbol (is_integer v))
    ∧ prim_is_sym [v] = Except.ok (bool_symbol (is_symbol v))
    ∧ prim_is_pair [v] = Except.ok (bool_symbol (is_pair v))
    ∧ prim_is_num [data_t.null] = Except.ok (data_t.symbol "#f")
    ∧ prim_is_int [data_t.null] = Except.ok (data_t.symbol "#f")
    ∧ prim_is_sym [data_t.null] = Except.ok (data_t.symbol "#f")
    ∧ prim_is_pair [data_t.null] = Except.ok (data_t.symbol "#f")
    ∧ (prim_is_int [v] = Except.ok (data_t.symbol "#f")
        ∨ prim_is_num [v] = Except.ok (data_t.symbol "#t"))
    ∧ ((prim_is_num [v] = Except.ok (data_t.symbol "#f")
          ∧ prim_is_sym [v] = Except.ok (data_t.symbol "#f"))
        ∨ (prim_is_num [v] = Except.ok (data_t.symbol "#f")
          ∧ prim_is_pair [v] = Except.ok (data_t.symbol "#f"))
        ∨ (prim_is_sym [v] = Except.ok (data_t.symbol "#f")
          ∧ prim_is_pair [v] = Except.ok (data_t.symbol "#f"))) := by
  cases v <;>
    simp [prim_is_num, prim_is_int, prim_is_sym, prim_is_pair, bool_symbol, make_symbol,
      is_number, is_integer, is_symbol, is_pair]

/-- C16: for every argument list, `or` returns `#t` if some argument is the symbol `#t`
and `#f` otherwise, and `and` returns `#f` if some argument is the symbol `#f` and `#t`
otherwise; `(or)` is `#f`, `(and)` is `#t` and `(or 1 2)` is `#f`. -/
theorem C16_or_and (list : List data_t) :
    prim_or list
      = Except.ok (if data_t.symbol "#t" ∈ list then data_t.symbol "#t"
          else data_t.symbol "#f")
    ∧ prim_and list
      = Except.ok (if data_t.symbol "#f" ∈ list then data_t.symbol "#f"
          else data_t.symbol "#t")
    ∧ prim_or [] = Except.ok (data_t.symbol "#f")
    ∧ prim_and [] = Except.ok (data_t.symbol "#t")
    ∧ prim_or [data_t.integer 1, data_t.integer 2] = Except.ok (data_t.symbol "#f") := by
  refine ⟨prim_or_eq list, prim_and_eq list, ?_, ?_, ?_⟩
  · simp [prim_or, make_symbol]
  · simp [prim_and, make_symbol]
  · simp [prim_or, is_equal, make_symbol]

/-- C17: `not` reads the text of its argument without looking at the tag: on the empty
list, `(not '())`, that is a read through `NULL`, and on a number, `(not 0)`, the payload
is used as the address of a text; on a symbol the answer is the claimed one. -/
theorem C17_prim_not (s : String) :
    prim_not [data_t.null] = Except.error fault.null_dereference
    ∧ prim_not [data_t.integer 0] = Except.error fault.union_member
    ∧ prim_not [data_t.decimal (Dbl.fin 0)] = Except.error fault.union_member
    ∧ prim_not [data_t.symbol "#f"] = Except.ok (data_t.symbol "#t")
    ∧ prim_not [data_t.symbol s]
      = Except.ok (if s = "#f" then data_t.symbol "#t" else data_t.symbol "#f") := by
  refine ⟨rfl, rfl, rfl, ?_, ?_⟩
  · simp [prim_not, make_symbol]
  · by_cases h : s = "#f" <;> simp [prim_not, make_symbol, h]

/-- C18: for every decimal `q` within the range of `int`, `round` returns an integer
nearest to `q`, and when `q = k + 1/2` for an integer `k` it returns whichever of `k`
and `k + 1` is even; an integer argument is returned unchanged. -/
theorem C18_prim_round (q : ℚ) (hlo : (INT_MIN : ℚ) ≤ q) (hhi : q ≤ (INT_MAX : ℚ))
    (n : Int) :
    (∃ r : Int, prim_round [data_t.decimal (Dbl.fin q)] = Except.ok (data_t.integer r)
      ∧ (∀ m : Int, |q - (r : ℚ)| ≤ |q - (m : ℚ)|)
      ∧ (∀ k : Int, q = (k : ℚ) + 1 / 2 → (r = k ∨ r = k + 1) ∧ Even r))
    ∧ prim_round [data_t.integer n] = Except.ok (data_t.integer n) := by
  obtain ⟨r, hr, hnear, hhalf⟩ := prim_round_decimal_fin q hlo hhi
  refine ⟨⟨r, ?_, hnear, hhalf⟩, rfl⟩
  simp [prim_round, hr]

/-- C18 at `q = 5/2` and `q = -7/2`: `(round 2.5)` is 2 and `(round -3.5)` is -4. -/
theorem C18_prim_round_witness :
    prim_round [data_t.decimal (Dbl.fin (5 / 2))] = Except.ok (data_t.integer 2)
    ∧ prim_round [data_t.decimal (Dbl.fin (-7 / 2))] = Except.ok (data_t.integer (-4)) := by
  constructor
  · obtain ⟨r, hr, _, hh⟩ :=
      (C18_prim_round (5 / 2) (by norm_num [INT_MIN]) (by norm_num [INT_MAX]) 0).1
    rcases hh 2 (by norm_num) with ⟨h | h, hev⟩
    · rw [hr, h]
    · rw [h] at hev
      exact absurd hev (by decide)
  · obtain ⟨r, hr, _, hh⟩ :=
      (C18_prim_round (-7 / 2) (by norm_num [INT_MIN]) (by norm_num [INT_MAX]) 0).1
    rcases hh (-4) (by norm_num) with ⟨h | h, hev⟩
    · rw [hr, h]
    · rw [h] at hev
      exact absurd hev (by decide)

/-- C19: `(max -3 -1)` is the Decimal 0.0, not -1: the running maxima start at 0 and
0.0, which no negative argument exceeds. -/
theorem C19_prim_max_negatives :
    prim_max [data_t.integer (-3), data_t.integer (-1)]
      = Except.ok (data_t.decimal (Dbl.fin 0)) := by
  simp [prim_max, prim_max_loop, make_decimal, Dbl.gt, Dbl.lt, Dbl.ofInt]

/-- C20: `(min 3000000000.0)` is the Integer 2147483647, not its argument: the integer
minimum starts at `INT_MAX`, which is below every decimal greater than it. -/
theorem C20_prim_min_large_decimal :
    prim_min [data_t.decimal (Dbl.fin 3000000000)] = Except.ok (data_t.integer 2147483647) := by
  simp [prim_min, prim_min_loop, make_int, Dbl.lt, Dbl.ofInt, DBL_MAX, INT_MAX]
  norm_num

/-- C21, as stated, fails: `(set-config! 'mem_lim_hard 0)` with 512 bytes in use assigns
the limit, after which the cell for `ok` is refused, so `ok` is not returned; and
`(set-config! 'mem_lim_soft 4096)` returns `ok` but `n_bytes_allocated`, one of the other
variables, has grown by the cell of that symbol. -/
theorem C21_hard_limit_and_bytes :
    prim_set_config one_byte_cells example_config
        [data_t.symbol "mem_lim_hard", data_t.integer 0]
      = (Except.error fault.allocation_refused, { example_config with mem_lim_hard := 0 })
    ∧ (prim_set_config one_byte_cells example_config
        [data_t.symbol "mem_lim_soft", data_t.integer 4096]).1
      = Except.ok (data_t.symbol "ok")
    ∧ (prim_set_config one_byte_cells example_config
        [data_t.symbol "mem_lim_soft", data_t.integer 4096]).2.n_bytes_allocated = 513
    ∧ example_config.n_bytes_allocated = 512 := by
  refine ⟨?_, ?_, ?_, rfl⟩
  · simp [prim_set_config, alloc_cell, one_byte_cells, example_config, make_symbol]
  · simp [prim_set_config, alloc_cell, one_byte_cells, example_config, make_symbol]
  · simp [prim_set_config, alloc_cell, one_byte_cells, example_config, make_symbol]

/-- C21, amended: for each name among `thread_timeout`, `mem_lim_soft`, `mem_lim_hard`,
`mem_verbosity` and every non-negative integer `v`, `(set-config! name v)` assigns `v` to
that variable and leaves the three others of these as they were; it returns `ok`, with
`n_bytes_allocated` grown by the cell of that symbol, unless the hard limit as it stands
after the assignment refuses the cell, and then `n_bytes_allocated` is unchanged; and a
following `(get-config name)` returns `v` if the hard limit does not refuse its cell. -/
theorem C21_config_round_trip (cell_bytes : data_t → Nat) (c : config) (name : String)
    (hname : name ∈ writable_names) (v : Int) (_hv0 : 0 ≤ v) (_hv : v ≤ INT_MAX) :
    read_config (prim_set_config cell_bytes c [data_t.symbol name, data_t.integer v]).2 name
      = some v
    ∧ (∀ other ∈ writable_names, other ≠ name →
        read_config (prim_set_config cell_bytes c [data_t.symbol name, data_t.integer v]).2
          other = read_config c other)
    ∧ (((prim_set_config cell_bytes c [data_t.symbol name, data_t.integer v]).1
          = Except.ok (data_t.symbol "ok")
        ∧ (prim_set_config cell_bytes c
            [data_t.symbol name, data_t.integer v]).2.n_bytes_allocated
          = c.n_bytes_allocated + (cell_bytes (data_t.symbol "ok") : Int))
      ∨ ((prim_set_config cell_bytes c [data_t.symbol name, data_t.integer v]).1
          = Except.error fault.allocation_refused
        ∧ (prim_set_config cell_bytes c
            [data_t.symbol name, data_t.integer v]).2.n_bytes_allocated
          = c.n_bytes_allocated))
    ∧ (c.n_bytes_allocated + (cell_bytes (data_t.symbol "ok") : Int)
          ≤ (prim_set_config cell_bytes c
              [data_t.symbol name, data_t.integer v]).2.mem_lim_hard →
        (prim_set_config cell_bytes c [data_t.symbol name, data_t.integer v]).1
          = Except.ok (data_t.symbol "ok"))
    ∧ ((prim_set_config cell_bytes c
            [data_t.symbol name, data_t.integer v]).2.n_bytes_allocated
          + (cell_bytes (data_t.integer v) : Int)
          ≤ (prim_set_config cell_bytes c
              [data_t.symbol name, data_t.integer v]).2.mem_lim_hard →
        (prim_get_config cell_bytes
          (prim_set_config cell_bytes c [data_t.symbol name, data_t.integer v]).2
          [data_t.symbol name]).1 = Except.ok (data_t.integer v)) := by
  obtain ⟨c1, hset, hread, hother, hn⟩ := prim_set_config_assigns cell_bytes c name hname v
  have hwrit : ∀ s ∈ writable_names, s ≠ "n_bytes_allocated" := by
    intro s hs
    simp only [writable_names, List.mem_cons, List.mem_singleton, List.not_mem_nil,
      or_false] at hs
    rcases hs with rfl | rfl | rfl | rfl <;> decide
  obtain ⟨_, _, hlim, _, hcases, hroom⟩ := alloc_cell_spec cell_bytes c1 (data_t.symbol "ok")
  have hread2 : read_config (alloc_cell cell_bytes c1 (data_t.symbol "ok")).2 name = some v := by
    rw [read_config_alloc_cell cell_bytes c1 _ name (hwrit name hname), hread]
  rw [hset]
  refine ⟨hread2, ?_, ?_, ?_, ?_⟩
  · intro other ho hne
    rw [read_config_alloc_cell cell_bytes c1 _ other (hwrit other ho), hother other hne]
  · rcases hcases with h | h
    · left
      rw [h, ← hn]
      exact ⟨rfl, rfl⟩
    · right
      rw [h, ← hn]
      exact ⟨rfl, rfl⟩
  · intro h
    rw [hlim, ← hn] at h
    exact hroom h
  · intro h
    exact prim_get_config_value cell_bytes _ name v hread2 h

/-- C21, amended, at `(set-config! 'mem_lim_soft 4096)` on the example configuration,
where neither cell is refused. -/
theorem C21_config_round_trip_witness :
    (prim_set_config one_byte_cells example_config
        [data_t.symbol "mem_lim_soft", data_t.integer 4096]).1
      = Except.ok (data_t.symbol "ok")
    ∧ (prim_get_config one_byte_cells
        (prim_set_config one_byte_cells example_config
          [data_t.symbol "mem_lim_soft", data_t.integer 4096]).2
        [data_t.symbol "mem_lim_soft"]).1 = Except.ok (data_t.integer 4096) :=
  ⟨(C21_config_round_trip one_byte_cells example_config "mem_lim_soft"
      (by simp [writable_names]) 4096 (by decide) (by decide)).2.2.2.1
      (by simp [prim_set_config, alloc_cell, one_byte_cells, example_config]),
   (C21_config_round_trip one_byte_cells example_config "mem_lim_soft"
      (by simp [writable_names]) 4096 (by decide) (by decide)).2.2.2.2
      (by simp [prim_set_config, alloc_cell, one_byte_cells, example_config])⟩

/-- C22, as stated, fails: `(set-config! 'n_bytes_allocated 0)` returns an error symbol,
and `n_bytes_allocated` has grown from 512 by the cell of that symbol. -/
theorem C22_error_symbol_is_counted :
    prim_set_config one_byte_cells example_config
        [data_t.symbol "n_bytes_allocated", data_t.integer 0]
      = (Except.ok (data_t.symbol "Unknown config variable"),
          { example_config with n_bytes_allocated := 513 })
    ∧ example_config.n_bytes_allocated = 512 := by
  refine ⟨?_, rfl⟩
  simp [prim_set_config, alloc_cell, one_byte_cells, example_config, make_symbol]

/-- C22, amended: `set-config!` called with a name that is not a symbol, with a value
that is not an integer, or with a symbol that is not one of the four assignable names
(such as `n_bytes_allocated` or an unknown name) assigns to no configuration variable and
never returns `ok`: either it returns an error symbol and the configuration differs from
the one before only in `n_bytes_allocated`, grown by the cell of that symbol, or the hard
limit refuses the cell and the configuration is the one before. -/
theorem C22_set_config_failure (cell_bytes : data_t → Nat) (c : config) (var val : data_t)
    (h : is_symbol var = false ∨ is_integer val = false
      ∨ ∃ s, var = data_t.symbol s ∧ s ∉ writable_names) :
    ∃ msg, msg ≠ "ok"
      ∧ (prim_set_config cell_bytes c [var, val]
          = (Except.ok (data_t.symbol msg),
              { c with n_bytes_allocated
                  := c.n_bytes_allocated + (cell_bytes (data_t.symbol msg) : Int) })
        ∨ prim_set_config cell_bytes c [var, val]
          = (Except.error fault.allocation_refused, c)) := by
  obtain ⟨msg, hmsg, hset⟩ := prim_set_config_failure_alloc cell_bytes c var val h
  refine ⟨msg, hmsg, ?_⟩
  rw [hset]
  exact (alloc_cell_spec cell_bytes c (data_t.symbol msg)).2.2.2.2.1

/-- C22, amended, at `(set-config! 'n_bytes_allocated 0)`, `(set-config! "mem_lim_soft" 1)`
and `(set-config! 'mem_lim_soft 1.5)` on the example configuration. -/
theorem C22_set_config_failure_witness :
    (∃ msg, msg ≠ "ok"
      ∧ (prim_set_config one_byte_cells example_config
            [data_t.symbol "n_bytes_allocated", data_t.integer 0]
          = (Except.ok (data_t.symbol msg),
              { example_config with n_bytes_allocated
                  := example_config.n_bytes_allocated
                    + (one_byte_cells (data_t.symbol msg) : Int) })
        ∨ prim_set_config one_byte_cells example_config
            [data_t.symbol "n_bytes_allocated", data_t.integer 0]
          = (Except.error fault.allocation_refused, example_config)))
    ∧ (∃ msg, msg ≠ "ok"
      ∧ (prim_set_config one_byte_cells example_config
            [data_t.string "mem_lim_soft", data_t.integer 1]
          = (Except.ok (data_t.symbol msg),
              { example_config with n_bytes_allocated
                  := example_config.n_bytes_allocated
                    + (one_byte_cells (data_t.symbol msg) : Int) })
        ∨ prim_set_config one_byte_cells example_config
            [data_t.string "mem_lim_soft", data_t.integer 1]
          = (Except.error fault.allocation_refused, example_config)))
    ∧ (∃ msg, msg ≠ "ok"
      ∧ (prim_set_config one_byte_cells example_config
            [data_t.symbol "mem_lim_soft", data_t.decimal (Dbl.fin (3 / 2))]
          = (Except.ok (data_t.symbol msg),
              { example_config with n_bytes_allocated
                  := example_config.n_bytes_allocated
                    + (one_byte_cells (data_t.symbol msg) : Int) })
        ∨ prim_set_config one_byte_cells example_config
            [data_t.symbol "mem_lim_soft", data_t.decimal (Dbl.fin (3 / 2))]
          = (Except.error fault.allocation_refused, example_config))) :=
  ⟨C22_set_config_failure one_byte_cells example_config (data_t.symbol "n_bytes_allocated")
      (data_t.integer 0)
      (Or.inr (Or.inr ⟨"n_bytes_allocated", rfl, by simp [writable_names]⟩)),
   C22_set_config_failure one_byte_cells example_config (data_t.string "mem_lim_soft")
      (data_t.integer 1) (Or.inl rfl),
   C22_set_config_failure one_byte_cells example_config (data_t.symbol "mem_lim_soft")
      (data_t.decimal (Dbl.fin (3 / 2))) (Or.inr (Or.inl rfl))⟩

/-- C23: primitives read the type tag of an argument that is the empty list: `(+ '())`,
`(< '() 1)`, `(floor '())`, `(not '())` and `(get-config '())` dereference `NULL`
instead of returning a value, and so do the other arithmetic, comparison and numeric
primitives. -/
theorem C23_null_argument (cell_bytes : data_t → Nat) (c : config) (istart0 : Int)
    (dstart0 : Dbl) :
    prim_add [data_t.null] = Except.error fault.null_dereference
    ∧ prim_comp_less [data_t.null, data_t.integer 1] = Except.error fault.null_dereference
    ∧ prim_floor [data_t.null] = Except.error fault.null_dereference
    ∧ prim_not [data_t.null] = Except.error fault.null_dereference
    ∧ prim_get_config cell_bytes c [data_t.null] = (Except.error fault.null_dereference, c)
    ∧ prim_mul [data_t.null] = Except.error fault.null_dereference
    ∧ prim_sub istart0 dstart0 [data_t.null] = Except.error fault.null_dereference
    ∧ prim_div [data_t.null] = Except.error fault.null_dereference
    ∧ prim_comp_eq [data_t.null, data_t.integer 1] = Except.error fault.null_dereference
    ∧ prim_comp_more [data_t.null, data_t.integer 1] = Except.error fault.null_dereference
    ∧ prim_round [data_t.null] = Except.error fault.null_dereference
    ∧ prim_max [data_t.null] = Except.error fault.null_dereference
    ∧ prim_min [data_t.null] = Except.error fault.null_dereference :=
  ⟨rfl, rfl, rfl, rfl, rfl, rfl, rfl, rfl, rfl, rfl, rfl, rfl, rfl⟩

/-- C24: after the calls `add_prim_proc(name_1, proc_1)`, ..., `add_prim_proc(name_n,
proc_n)` on the empty registry, `primitive_procedure_names` returns the list of the `n`
names in the order of registration and `primitive_procedure_objects` returns, in the same
order, the list of the `n` entries `(primitive <proc_i>)`; both have length `n`; this
holds also when a name is registered more than once. -/
theorem C24_registry_order (entries : List (String × Nat)) :
    (∃ names objects,
      primitive_procedure_names (register_all entries) = some names
      ∧ primitive_procedure_objects (register_all entries) = some objects
      ∧ list_elements names = some (entries.map (fun e => data_t.symbol e.1))
      ∧ list_elements objects = some (entries.map (fun e => primitive_object e.2))
      ∧ length names = some entries.length
      ∧ length objects = some entries.length)
    ∧ primitive_procedure_names (register_all [("string?", 32), ("string?", 32), ("pair?", 33)])
      = some (data_t.pair (data_t.symbol "string?") (data_t.pair (data_t.symbol "string?")
          (data_t.pair (data_t.symbol "pair?") data_t.null)))
    ∧ primitive_procedure_objects (register_all [("string?", 32), ("string?", 32)])
      = some (data_t.pair (primitive_object 32) (data_t.pair (primitive_object 32)
          data_t.null)) := by
  refine ⟨?_, rfl, rfl⟩
  obtain ⟨hname, hproc, _, _, hlen⟩ := register_all_spec entries
  refine ⟨_, _, registry_walk _ entries, registry_walk _ entries, ?_, ?_, ?_, ?_⟩
  · rw [(list_elements_items_onto _ _).1]
    have h := congrArg (List.map data_t.symbol) hname
    simpa [make_symbol] using h
  · rw [(list_elements_items_onto _ _).1]
    have h := congrArg (List.map primitive_object) hproc
    simpa [make_symbol, make_primitive, cons, primitive_object] using h
  · rw [(list_elements_items_onto _ _).2, hlen]
  · rw [(list_elements_items_onto _ _).2, hlen]

end Libisp
